import Mathlib

/-!
Verification of the bases-bridge query/filter evaluation engine.

This file gives a shallow embedding of the core evaluation routines of the
plugin (value resolver, formula evaluator, filter evaluator, query-planner
pagination/limit/warning handling, and the batch upsert loop) and proves or
refutes the specification claims about them.

Modelling conventions:
* JS values are `Value` (numbers are exact rationals; NaN and infinities are
  not representable, `undefined` is `Option.none` at the `JSVal` level).
* JS strings are Lean `String`s manipulated through their character lists;
  `localeCompare` and JS string ordering are modelled as code-point order.
* The character classes `\p{L}` and `\p{N}` are modelled with a generated
  table of the Unicode Letter and Number general-category code-point ranges
  (Unicode character database version 14.0.0).
* Recursion through schema formulas (which can diverge in the source) is made
  total with an explicit fuel parameter; exhausted fuel yields `Option.none`
  at the outer level, distinct from the JS value `undefined`.
-/

set_option maxHeartbeats 1000000
set_option maxRecDepth 8192

/-- The single-quote character (U+0027), kept out of literals for hygiene. -/
def squoteChar : Char := Char.ofNat 39

/-- The double-quote character (U+0022). -/
def dquoteChar : Char := Char.ofNat 34

/-- The backslash character (U+005C). -/
def backslashChar : Char := Char.ofNat 92

/-- Single quote as a one-character string. -/
def squoteStr : String := ⟨[squoteChar]⟩

/-- Double quote as a one-character string. -/
def dquoteStr : String := ⟨[dquoteChar]⟩

/-- A JS/JSON runtime value as found in note frontmatter and requests.
Numbers are exact rationals (JS doubles without NaN/infinities); arrays hold
values only (no embedded `undefined`). -/
inductive Value where
  | null
  | bool (b : Bool)
  | num (q : Rat)
  | str (s : String)
  | arr (elems : List Value)
  | obj (fields : List (String × Value))

/-- A JS value or `undefined` (modelled as `none`). -/
abbrev JSVal := Option Value

/-- The JS whitespace class (`\s`, also the set trimmed by `trim`): ASCII
whitespace plus the Unicode space separators, the line separators and the
BOM. -/
def jsWhitespace (c : Char) : Bool :=
  c = ' ' || c = '\t' || c = '\n' || c = '\r' ||
  c.toNat = 11 || c.toNat = 12 || c.toNat = 160 || c.toNat = 5760 ||
  (8192 ≤ c.toNat && c.toNat ≤ 8202) || c.toNat = 8232 || c.toNat = 8233 ||
  c.toNat = 8239 || c.toNat = 8287 || c.toNat = 12288 || c.toNat = 65279

/-- JS `String.prototype.trim` (whitespace stripped from both ends). -/
def jsTrim (s : String) : String :=
  ⟨((s.data.dropWhile jsWhitespace).reverse.dropWhile jsWhitespace).reverse⟩

/-- JS `startsWith`. -/
def strStartsWith (s p : String) : Bool := p.data.isPrefixOf s.data

/-- JS `endsWith`. -/
def strEndsWith (s p : String) : Bool := p.data.isSuffixOf s.data

/-- Drop the first `n` characters (JS `slice(n)`). -/
def strDrop (s : String) (n : Nat) : String := ⟨s.data.drop n⟩

/-- Drop the last `n` characters (JS `slice(0, -n)`). -/
def strDropRight (s : String) (n : Nat) : String := ⟨s.data.take (s.data.length - n)⟩

/-- Substring test helper over character lists. -/
def strContainsAux (sub : List Char) : List Char → Bool
  | [] => sub.isEmpty
  | c :: rest => sub.isPrefixOf (c :: rest) || strContainsAux sub rest

/-- JS `includes` on strings. -/
def strContains (s sub : String) : Bool := strContainsAux sub.data s.data

/-- JS `toLowerCase`, restricted to the ASCII mapping of `Char.toLower`. -/
def jsToLower (s : String) : String := ⟨s.data.map Char.toLower⟩

/-- The JS line terminators (LF, CR, LS, PS), the characters the regex dot
does not match outside `s`-flagged patterns. -/
def isLineTerm (c : Char) : Bool :=
  c = '\n' || c = '\r' || c.toNat = 8232 || c.toNat = 8233

/-- True when the string has no line-terminator characters; used to model
the regex dot for capture groups of patterns without the `s` flag. -/
def noNewline (s : String) : Bool := s.data.all (fun c => !isLineTerm c)

/-- Numeric value of a digit list (most significant first). -/
def digitsVal (cs : List Char) : Nat := cs.foldl (fun a c => a * 10 + (c.toNat - 48)) 0

/-- Parser for the numeric-literal regex of the source,
an optional minus sign, digits, and an optional fractional part. -/
def numLit (s : String) : Option Rat :=
  let cs := s.data
  let neg : Bool := match cs with
    | c :: _ => c = '-'
    | [] => false
  let body := if neg then cs.drop 1 else cs
  let ip := body.takeWhile Char.isDigit
  let rest := body.dropWhile Char.isDigit
  if ip.isEmpty then none
  else
    let base : Rat := (digitsVal ip : Nat)
    match rest with
    | [] => some (if neg then -base else base)
    | c :: frac =>
      if c = '.' ∧ ¬frac.isEmpty ∧ frac.all Char.isDigit then
        let v : Rat := base + (digitsVal frac : Rat) / ((10 : Rat) ^ frac.length)
        some (if neg then -v else v)
      else none

/-- JS number formatting. Integral values print exactly as in JS; the
non-integral fallback is only reachable on paths no claim exercises. -/
def numToString (q : Rat) : String :=
  if q.den = 1 then toString q.num else toString q

mutual
/-- JS `String(value)` coercion. -/
def jsToString : Value → String
  | .null => "null"
  | .bool b => if b then "true" else "false"
  | .num q => numToString q
  | .str s => s
  | .arr elems => String.intercalate "," (jsToStringList elems)
  | .obj _ => "[object Object]"

/-- Array elements under JS `Array.prototype.toString` (null prints empty). -/
def jsToStringList : List Value → List String
  | [] => []
  | .null :: rest => "" :: jsToStringList rest
  | v :: rest => jsToString v :: jsToStringList rest
end

/-- JS `String(value)` including `undefined`. -/
def jsvalToString : JSVal → String
  | none => "undefined"
  | some v => jsToString v

/-- JS `Number(string)`: empty/whitespace is 0, decimal literals parse,
everything else (hex, exponent, `Infinity`, garbage) is NaN (`none`). -/
def jsStringToNumber (s : String) : Option Rat :=
  let t := jsTrim s
  if t = "" then some 0 else numLit t

/-- JS `Number(value)` with `none` for NaN.  Arrays coerce through their
string form; plain objects are NaN. -/
def toNumber : JSVal → Option Rat
  | none => none
  | some .null => some 0
  | some (.bool b) => some (if b then 1 else 0)
  | some (.num q) => some q
  | some (.str s) => jsStringToNumber s
  | some (.arr elems) => jsStringToNumber (jsToString (.arr elems))
  | some (.obj _) => none

/-- The shared truthiness rule of the source (`condOk` in
`evalFormulaExpression` and the bare-identifier case of
`evaluateStatement`): `true`, non-blank strings, finite numbers, non-empty
arrays and non-empty objects are truthy.  Every modelled number is finite. -/
def truthy : JSVal → Bool
  | none => false
  | some .null => false
  | some (.bool b) => b
  | some (.num _) => true
  | some (.str s) => !(jsTrim s).isEmpty
  | some (.arr elems) => !elems.isEmpty
  | some (.obj fields) => !fields.isEmpty

/-- `stripQuotes` of the source: trim, then drop one layer of matching
single or double quotes. -/
def stripQuotes (value : String) : String :=
  let trimmed := jsTrim value
  if (strStartsWith trimmed dquoteStr && strEndsWith trimmed dquoteStr) ||
     (strStartsWith trimmed squoteStr && strEndsWith trimmed squoteStr) then
    strDropRight (strDrop trimmed 1) 1
  else trimmed

/-- Worker for `splitOutsideQuotes`: walks the characters tracking quote
state (with backslash-escape lookbehind) and splits on the needle when
outside quotes.  The JS index jump over a matched needle is modelled with a
`skip` counter consuming the remaining needle characters one at a time
(quote state frozen, `prev` tracking maintained), which is observationally
the jump itself.  (A hypothetical empty needle diverges in JS; here it
degenerates harmlessly and is never used.) -/
def splitOutsideQuotesAux (needle : List Char) (cs : List Char) (prev : Option Char)
    (inS inD : Bool) (skip : Nat) (current : List Char) (parts : List String) :
    List String :=
  match cs with
  | [] => parts ++ [⟨current.reverse⟩]
  | c :: rest =>
    match skip with
    | n + 1 => splitOutsideQuotesAux needle rest (some c) inS inD n current parts
    | 0 =>
      let inS' := if c = squoteChar ∧ ¬inD ∧ prev ≠ some backslashChar then !inS else inS
      let inD' := if c = dquoteChar ∧ ¬inS ∧ prev ≠ some backslashChar then !inD else inD
      if ¬inS' ∧ ¬inD' ∧ needle.isPrefixOf (c :: rest) then
        splitOutsideQuotesAux needle rest (some c) inS' inD' (needle.length - 1) []
          (parts ++ [⟨current.reverse⟩])
      else
        splitOutsideQuotesAux needle rest (some c) inS' inD' 0 (c :: current) parts

/-- `splitOutsideQuotes` of the source: quote-aware split, parts trimmed and
empty parts dropped. -/
def splitOutsideQuotes (input : String) (needle : String) : List String :=
  ((splitOutsideQuotesAux needle.data input.data none false false 0 [] []).map jsTrim).filter
    (fun p => !p.isEmpty)

/-- Worker for `splitTopLevelCommas`: tracks quote state and parenthesis
depth; commas split only at depth 0 outside quotes.  Parts are kept verbatim
(no trim/filter), as in the source. -/
def splitTopLevelCommasAux (cs : List Char) (prev : Option Char) (inS inD : Bool)
    (depth : Nat) (current : List Char) (parts : List String) : List String :=
  match cs with
  | [] => parts ++ [⟨current.reverse⟩]
  | c :: rest =>
    if c = squoteChar ∧ ¬inD ∧ prev ≠ some backslashChar then
      splitTopLevelCommasAux rest (some c) (!inS) inD depth (c :: current) parts
    else if c = dquoteChar ∧ ¬inS ∧ prev ≠ some backslashChar then
      splitTopLevelCommasAux rest (some c) inS (!inD) depth (c :: current) parts
    else if ¬inS ∧ ¬inD ∧ c = '(' then
      splitTopLevelCommasAux rest (some c) inS inD (depth + 1) (c :: current) parts
    else if ¬inS ∧ ¬inD ∧ c = ')' then
      splitTopLevelCommasAux rest (some c) inS inD (depth - 1) (c :: current) parts
    else if ¬inS ∧ ¬inD ∧ c = ',' ∧ depth = 0 then
      splitTopLevelCommasAux rest (some c) inS inD depth [] (parts ++ [⟨current.reverse⟩])
    else
      splitTopLevelCommasAux rest (some c) inS inD depth (c :: current) parts

/-- `splitTopLevelCommas` of the source. -/
def splitTopLevelCommas (input : String) : List String :=
  splitTopLevelCommasAux input.data none false false 0 [] []

/-- `parseStringListLiteral` of the source: comma split (quote aware), each
part trimmed and unquoted, empties dropped. -/
def parseStringListLiteral (inner : String) : List String :=
  ((splitOutsideQuotes inner ",").map (fun part => stripQuotes (jsTrim part))).filter
    (fun v => v ≠ "")

/-- Backslashes replaced by forward slashes (JS `replace` with a global
backslash pattern). -/
def slashNormalize (s : String) : String :=
  ⟨s.data.map (fun c => if c = backslashChar then '/' else c)⟩

/-- Trailing slashes removed (JS `replace` of a trailing-slash run). -/
def stripTrailingSlashes (s : String) : String :=
  ⟨(s.data.reverse.dropWhile (fun c => c = '/')).reverse⟩

/-- `dirname` of the source: normalize separators, then keep everything
before the last slash (empty when there is none). -/
def dirname (path : String) : String :=
  let cs := (slashNormalize path).data
  ⟨((cs.reverse.dropWhile (fun c => c ≠ '/')).drop 1).reverse⟩

/-- `normBaseId` of the source.  `decodeURIComponent` is not modelled (it is
the identity on all ids appearing in the claims); backslashes normalize to
slashes, and the empty id maps to itself. -/
def normBaseId (id : String) : String := slashNormalize id

/-- A note as seen through the host metadata cache: path and stat fields,
cached frontmatter, cached tag occurrences (raw, possibly `#`-prefixed) and
cached outbound link targets. -/
structure NoteFile where
  path : String
  basename : String
  extension : String
  size : Rat
  ctime : Rat
  mtime : Rat
  frontmatter : List (String × Value)
  cacheTags : List String
  links : List String

/-- The slice of the extracted schema consulted by the evaluators: the raw
`formulas` section (other schema parts — properties, views, filters — are
never read by `getValueForRef`/`evalFormula*`). -/
structure BaseSchema where
  formulas : Option (List (String × Value))

/-- Raw frontmatter lookup (`fm[key]`, `undefined` when absent). -/
def lookupFm (file : NoteFile) (key : String) : JSVal := file.frontmatter.lookup key

/-- The `file.*` fixed field set of `getValueForRef`. -/
def fileField (file : NoteFile) (key : String) : JSVal :=
  if key = "path" then some (.str file.path)
  else if key = "name" then some (.str file.basename)
  else if key = "ext" then some (.str file.extension)
  else if key = "size" then some (.num file.size)
  else if key = "ctime" then some (.num file.ctime)
  else if key = "mtime" then some (.num file.mtime)
  else if key = "folder" then some (.str (dirname file.path))
  else none

/-- One leading `#` stripped (JS `replace` anchored at the start). -/
def stripHash (t : String) : String := if strStartsWith t "#" then strDrop t 1 else t

/-- Split on `,` and space characters.  The source splits on *runs* of these
separators; splitting per character instead produces extra empty segments
that the subsequent trim/filter removes identically. -/
def splitCommaSpaceAux (cs : List Char) (current : List Char) : List String :=
  match cs with
  | [] => [⟨current.reverse⟩]
  | c :: rest =>
    if c = ',' ∨ c = ' ' then ⟨current.reverse⟩ :: splitCommaSpaceAux rest []
    else splitCommaSpaceAux rest (c :: current)

/-- String split for frontmatter `tags` given as one string. -/
def splitCommaSpace (s : String) : List String := splitCommaSpaceAux s.data []

/-- `getTagSet` of the source: cache tags (hash stripped, empties dropped)
plus frontmatter `tags` given as a string or an array of strings.  The JS
`Set` is modelled as a list queried by membership. -/
def getTagSet (file : NoteFile) : List String :=
  let fromCache := (file.cacheTags.map stripHash).filter (fun t => t ≠ "")
  let fromFm : List String :=
    match lookupFm file "tags" with
    | some (.str s) =>
      (((splitCommaSpace s).map jsTrim).filter (fun t => t ≠ "")).map stripHash
    | some (.arr elems) =>
      elems.filterMap (fun v =>
        match v with
        | .str t => if jsTrim t ≠ "" then some (stripHash t) else none
        | _ => none)
    | _ => []
  fromCache ++ fromFm

/-- Tag-set membership (`Set.has`). -/
def tagSetHas (file : NoteFile) (tag : String) : Bool := (getTagSet file).contains tag

/-- A trailing `.md` removed case-insensitively. -/
def stripMdSuffix (s : String) : String :=
  if strEndsWith (jsToLower s) ".md" then strDropRight s 3 else s

/-- `fileHasLink` of the source: membership of the target in the cached
outbound links, comparing with `.md` suffixes stripped or verbatim. -/
def fileHasLink (file : NoteFile) (target : String) : Bool :=
  let want := jsTrim target
  if want = "" then false
  else
    let normalizedWant := stripMdSuffix want
    file.links.any (fun raw =>
      raw ≠ "" && (stripMdSuffix raw == normalizedWant || raw == want))

/-- Characters before the first occurrence of `c` (JS `split(c)[0]`). -/
def takeUntilChar (cs : List Char) (c : Char) : List Char := cs.takeWhile (fun x => x ≠ c)

/-- `normalizeLinkish` of the source: trim, unwrap `[[...]]`, drop display
text after a pipe and anchors after a hash, strip `.md`, trim. -/
def normalizeLinkish (value : String) : String :=
  let v0 := jsTrim value
  let inner := strDropRight (strDrop v0 2) 2
  let v1 :=
    if strStartsWith v0 "[[" && strEndsWith v0 "]]" && decide (4 ≤ v0.data.length) &&
        noNewline inner then inner
    else v0
  let v2 : String := ⟨takeUntilChar v1.data '|'⟩
  let v3 : String := ⟨takeUntilChar v2.data '#'⟩
  jsTrim (stripMdSuffix v3)

/-- Code-point ranges of the Unicode general categories Letter (`L*`) and
Number (`N*`), generated from the Unicode character database version
14.0.0; the model of the regex classes `\p{L}` and `\p{N}`. -/
def letterNumRanges : List (Nat × Nat) := [
    (48, 57), (65, 90), (97, 122), (170, 170), (178, 179), (181, 181),
    (185, 186), (188, 190), (192, 214), (216, 246), (248, 705), (710, 721),
    (736, 740), (748, 748), (750, 750), (880, 884), (886, 887), (890, 893),
    (895, 895), (902, 902), (904, 906), (908, 908), (910, 929), (931, 1013),
    (1015, 1153), (1162, 1327), (1329, 1366), (1369, 1369), (1376, 1416), (1488, 1514),
    (1519, 1522), (1568, 1610), (1632, 1641), (1646, 1647), (1649, 1747), (1749, 1749),
    (1765, 1766), (1774, 1788), (1791, 1791), (1808, 1808), (1810, 1839), (1869, 1957),
    (1969, 1969), (1984, 2026), (2036, 2037), (2042, 2042), (2048, 2069), (2074, 2074),
    (2084, 2084), (2088, 2088), (2112, 2136), (2144, 2154), (2160, 2183), (2185, 2190),
    (2208, 2249), (2308, 2361), (2365, 2365), (2384, 2384), (2392, 2401), (2406, 2415),
    (2417, 2432), (2437, 2444), (2447, 2448), (2451, 2472), (2474, 2480), (2482, 2482),
    (2486, 2489), (2493, 2493), (2510, 2510), (2524, 2525), (2527, 2529), (2534, 2545),
    (2548, 2553), (2556, 2556), (2565, 2570), (2575, 2576), (2579, 2600), (2602, 2608),
    (2610, 2611), (2613, 2614), (2616, 2617), (2649, 2652), (2654, 2654), (2662, 2671),
    (2674, 2676), (2693, 2701), (2703, 2705), (2707, 2728), (2730, 2736), (2738, 2739),
    (2741, 2745), (2749, 2749), (2768, 2768), (2784, 2785), (2790, 2799), (2809, 2809),
    (2821, 2828), (2831, 2832), (2835, 2856), (2858, 2864), (2866, 2867), (2869, 2873),
    (2877, 2877), (2908, 2909), (2911, 2913), (2918, 2927), (2929, 2935), (2947, 2947),
    (2949, 2954), (2958, 2960), (2962, 2965), (2969, 2970), (2972, 2972), (2974, 2975),
    (2979, 2980), (2984, 2986), (2990, 3001), (3024, 3024), (3046, 3058), (3077, 3084),
    (3086, 3088), (3090, 3112), (3114, 3129), (3133, 3133), (3160, 3162), (3165, 3165),
    (3168, 3169), (3174, 3183), (3192, 3198), (3200, 3200), (3205, 3212), (3214, 3216),
    (3218, 3240), (3242, 3251), (3253, 3257), (3261, 3261), (3293, 3294), (3296, 3297),
    (3302, 3311), (3313, 3314), (3332, 3340), (3342, 3344), (3346, 3386), (3389, 3389),
    (3406, 3406), (3412, 3414), (3416, 3425), (3430, 3448), (3450, 3455), (3461, 3478),
    (3482, 3505), (3507, 3515), (3517, 3517), (3520, 3526), (3558, 3567), (3585, 3632),
    (3634, 3635), (3648, 3654), (3664, 3673), (3713, 3714), (3716, 3716), (3718, 3722),
    (3724, 3747), (3749, 3749), (3751, 3760), (3762, 3763), (3773, 3773), (3776, 3780),
    (3782, 3782), (3792, 3801), (3804, 3807), (3840, 3840), (3872, 3891), (3904, 3911),
    (3913, 3948), (3976, 3980), (4096, 4138), (4159, 4169), (4176, 4181), (4186, 4189),
    (4193, 4193), (4197, 4198), (4206, 4208), (4213, 4225), (4238, 4238), (4240, 4249),
    (4256, 4293), (4295, 4295), (4301, 4301), (4304, 4346), (4348, 4680), (4682, 4685),
    (4688, 4694), (4696, 4696), (4698, 4701), (4704, 4744), (4746, 4749), (4752, 4784),
    (4786, 4789), (4792, 4798), (4800, 4800), (4802, 4805), (4808, 4822), (4824, 4880),
    (4882, 4885), (4888, 4954), (4969, 4988), (4992, 5007), (5024, 5109), (5112, 5117),
    (5121, 5740), (5743, 5759), (5761, 5786), (5792, 5866), (5870, 5880), (5888, 5905),
    (5919, 5937), (5952, 5969), (5984, 5996), (5998, 6000), (6016, 6067), (6103, 6103),
    (6108, 6108), (6112, 6121), (6128, 6137), (6160, 6169), (6176, 6264), (6272, 6276),
    (6279, 6312), (6314, 6314), (6320, 6389), (6400, 6430), (6470, 6509), (6512, 6516),
    (6528, 6571), (6576, 6601), (6608, 6618), (6656, 6678), (6688, 6740), (6784, 6793),
    (6800, 6809), (6823, 6823), (6917, 6963), (6981, 6988), (6992, 7001), (7043, 7072),
    (7086, 7141), (7168, 7203), (7232, 7241), (7245, 7293), (7296, 7304), (7312, 7354),
    (7357, 7359), (7401, 7404), (7406, 7411), (7413, 7414), (7418, 7418), (7424, 7615),
    (7680, 7957), (7960, 7965), (7968, 8005), (8008, 8013), (8016, 8023), (8025, 8025),
    (8027, 8027), (8029, 8029), (8031, 8061), (8064, 8116), (8118, 8124), (8126, 8126),
    (8130, 8132), (8134, 8140), (8144, 8147), (8150, 8155), (8160, 8172), (8178, 8180),
    (8182, 8188), (8304, 8305), (8308, 8313), (8319, 8329), (8336, 8348), (8450, 8450),
    (8455, 8455), (8458, 8467), (8469, 8469), (8473, 8477), (8484, 8484), (8486, 8486),
    (8488, 8488), (8490, 8493), (8495, 8505), (8508, 8511), (8517, 8521), (8526, 8526),
    (8528, 8585), (9312, 9371), (9450, 9471), (10102, 10131), (11264, 11492), (11499, 11502),
    (11506, 11507), (11517, 11517), (11520, 11557), (11559, 11559), (11565, 11565), (11568, 11623),
    (11631, 11631), (11648, 11670), (11680, 11686), (11688, 11694), (11696, 11702), (11704, 11710),
    (11712, 11718), (11720, 11726), (11728, 11734), (11736, 11742), (11823, 11823), (12293, 12295),
    (12321, 12329), (12337, 12341), (12344, 12348), (12353, 12438), (12445, 12447), (12449, 12538),
    (12540, 12543), (12549, 12591), (12593, 12686), (12690, 12693), (12704, 12735), (12784, 12799),
    (12832, 12841), (12872, 12879), (12881, 12895), (12928, 12937), (12977, 12991), (13312, 19903),
    (19968, 42124), (42192, 42237), (42240, 42508), (42512, 42539), (42560, 42606), (42623, 42653),
    (42656, 42735), (42775, 42783), (42786, 42888), (42891, 42954), (42960, 42961), (42963, 42963),
    (42965, 42969), (42994, 43009), (43011, 43013), (43015, 43018), (43020, 43042), (43056, 43061),
    (43072, 43123), (43138, 43187), (43216, 43225), (43250, 43255), (43259, 43259), (43261, 43262),
    (43264, 43301), (43312, 43334), (43360, 43388), (43396, 43442), (43471, 43481), (43488, 43492),
    (43494, 43518), (43520, 43560), (43584, 43586), (43588, 43595), (43600, 43609), (43616, 43638),
    (43642, 43642), (43646, 43695), (43697, 43697), (43701, 43702), (43705, 43709), (43712, 43712),
    (43714, 43714), (43739, 43741), (43744, 43754), (43762, 43764), (43777, 43782), (43785, 43790),
    (43793, 43798), (43808, 43814), (43816, 43822), (43824, 43866), (43868, 43881), (43888, 44002),
    (44016, 44025), (44032, 55203), (55216, 55238), (55243, 55291), (63744, 64109), (64112, 64217),
    (64256, 64262), (64275, 64279), (64285, 64285), (64287, 64296), (64298, 64310), (64312, 64316),
    (64318, 64318), (64320, 64321), (64323, 64324), (64326, 64433), (64467, 64829), (64848, 64911),
    (64914, 64967), (65008, 65019), (65136, 65140), (65142, 65276), (65296, 65305), (65313, 65338),
    (65345, 65370), (65382, 65470), (65474, 65479), (65482, 65487), (65490, 65495), (65498, 65500),
    (65536, 65547), (65549, 65574), (65576, 65594), (65596, 65597), (65599, 65613), (65616, 65629),
    (65664, 65786), (65799, 65843), (65856, 65912), (65930, 65931), (66176, 66204), (66208, 66256),
    (66273, 66299), (66304, 66339), (66349, 66378), (66384, 66421), (66432, 66461), (66464, 66499),
    (66504, 66511), (66513, 66517), (66560, 66717), (66720, 66729), (66736, 66771), (66776, 66811),
    (66816, 66855), (66864, 66915), (66928, 66938), (66940, 66954), (66956, 66962), (66964, 66965),
    (66967, 66977), (66979, 66993), (66995, 67001), (67003, 67004), (67072, 67382), (67392, 67413),
    (67424, 67431), (67456, 67461), (67463, 67504), (67506, 67514), (67584, 67589), (67592, 67592),
    (67594, 67637), (67639, 67640), (67644, 67644), (67647, 67669), (67672, 67702), (67705, 67742),
    (67751, 67759), (67808, 67826), (67828, 67829), (67835, 67867), (67872, 67897), (67968, 68023),
    (68028, 68047), (68050, 68096), (68112, 68115), (68117, 68119), (68121, 68149), (68160, 68168),
    (68192, 68222), (68224, 68255), (68288, 68295), (68297, 68324), (68331, 68335), (68352, 68405),
    (68416, 68437), (68440, 68466), (68472, 68497), (68521, 68527), (68608, 68680), (68736, 68786),
    (68800, 68850), (68858, 68899), (68912, 68921), (69216, 69246), (69248, 69289), (69296, 69297),
    (69376, 69415), (69424, 69445), (69457, 69460), (69488, 69505), (69552, 69579), (69600, 69622),
    (69635, 69687), (69714, 69743), (69745, 69746), (69749, 69749), (69763, 69807), (69840, 69864),
    (69872, 69881), (69891, 69926), (69942, 69951), (69956, 69956), (69959, 69959), (69968, 70002),
    (70006, 70006), (70019, 70066), (70081, 70084), (70096, 70106), (70108, 70108), (70113, 70132),
    (70144, 70161), (70163, 70187), (70272, 70278), (70280, 70280), (70282, 70285), (70287, 70301),
    (70303, 70312), (70320, 70366), (70384, 70393), (70405, 70412), (70415, 70416), (70419, 70440),
    (70442, 70448), (70450, 70451), (70453, 70457), (70461, 70461), (70480, 70480), (70493, 70497),
    (70656, 70708), (70727, 70730), (70736, 70745), (70751, 70753), (70784, 70831), (70852, 70853),
    (70855, 70855), (70864, 70873), (71040, 71086), (71128, 71131), (71168, 71215), (71236, 71236),
    (71248, 71257), (71296, 71338), (71352, 71352), (71360, 71369), (71424, 71450), (71472, 71483),
    (71488, 71494), (71680, 71723), (71840, 71922), (71935, 71942), (71945, 71945), (71948, 71955),
    (71957, 71958), (71960, 71983), (71999, 71999), (72001, 72001), (72016, 72025), (72096, 72103),
    (72106, 72144), (72161, 72161), (72163, 72163), (72192, 72192), (72203, 72242), (72250, 72250),
    (72272, 72272), (72284, 72329), (72349, 72349), (72368, 72440), (72704, 72712), (72714, 72750),
    (72768, 72768), (72784, 72812), (72818, 72847), (72960, 72966), (72968, 72969), (72971, 73008),
    (73030, 73030), (73040, 73049), (73056, 73061), (73063, 73064), (73066, 73097), (73112, 73112),
    (73120, 73129), (73440, 73458), (73648, 73648), (73664, 73684), (73728, 74649), (74752, 74862),
    (74880, 75075), (77712, 77808), (77824, 78894), (82944, 83526), (92160, 92728), (92736, 92766),
    (92768, 92777), (92784, 92862), (92864, 92873), (92880, 92909), (92928, 92975), (92992, 92995),
    (93008, 93017), (93019, 93025), (93027, 93047), (93053, 93071), (93760, 93846), (93952, 94026),
    (94032, 94032), (94099, 94111), (94176, 94177), (94179, 94179), (94208, 100343), (100352, 101589),
    (101632, 101640), (110576, 110579), (110581, 110587), (110589, 110590), (110592, 110882), (110928, 110930),
    (110948, 110951), (110960, 111355), (113664, 113770), (113776, 113788), (113792, 113800), (113808, 113817),
    (119520, 119539), (119648, 119672), (119808, 119892), (119894, 119964), (119966, 119967), (119970, 119970),
    (119973, 119974), (119977, 119980), (119982, 119993), (119995, 119995), (119997, 120003), (120005, 120069),
    (120071, 120074), (120077, 120084), (120086, 120092), (120094, 120121), (120123, 120126), (120128, 120132),
    (120134, 120134), (120138, 120144), (120146, 120485), (120488, 120512), (120514, 120538), (120540, 120570),
    (120572, 120596), (120598, 120628), (120630, 120654), (120656, 120686), (120688, 120712), (120714, 120744),
    (120746, 120770), (120772, 120779), (120782, 120831), (122624, 122654), (123136, 123180), (123191, 123197),
    (123200, 123209), (123214, 123214), (123536, 123565), (123584, 123627), (123632, 123641), (124896, 124902),
    (124904, 124907), (124909, 124910), (124912, 124926), (124928, 125124), (125127, 125135), (125184, 125251),
    (125259, 125259), (125264, 125273), (126065, 126123), (126125, 126127), (126129, 126132), (126209, 126253),
    (126255, 126269), (126464, 126467), (126469, 126495), (126497, 126498), (126500, 126500), (126503, 126503),
    (126505, 126514), (126516, 126519), (126521, 126521), (126523, 126523), (126530, 126530), (126535, 126535),
    (126537, 126537), (126539, 126539), (126541, 126543), (126545, 126546), (126548, 126548), (126551, 126551),
    (126553, 126553), (126555, 126555), (126557, 126557), (126559, 126559), (126561, 126562), (126564, 126564),
    (126567, 126570), (126572, 126578), (126580, 126583), (126585, 126588), (126590, 126590), (126592, 126601),
    (126603, 126619), (126625, 126627), (126629, 126633), (126635, 126651), (127232, 127244), (130032, 130041),
    (131072, 173791), (173824, 177976), (177984, 178205), (178208, 183969), (183984, 191456), (194560, 195101),
    (196608, 201546)
]

/-- Membership in the Unicode Letter or Number categories (`[\p{L}\p{N}]`). -/
def isUnicodeLetterNum (c : Char) : Bool :=
  letterNumRanges.any (fun r => r.1 ≤ c.toNat && c.toNat ≤ r.2)

/-- Identifier characters of the reference-token character class
`[\p{L}\p{N}_-]`: Unicode letters and numbers, underscore and hyphen. -/
def isRefChar (c : Char) : Bool := isUnicodeLetterNum c || c = '_' || c = '-'

/-- The bare reference-token pattern: one or more identifier characters. -/
def isRefToken (s : String) : Bool := !s.data.isEmpty && s.data.all isRefChar

/-- Leading whitespace dropped (the regex `\s*`). -/
def dropWhileWS (cs : List Char) : List Char := cs.dropWhile jsWhitespace

/-- Match `(<inner>)` with optional surrounding whitespace, where `inner`
contains no closing parenthesis and is non-empty, and nothing but whitespace
follows; returns the raw inner text (trimmed later at use sites, matching
the regex's capture up to the whitespace handling the trim subsumes). -/
def parseParenArg (cs : List Char) : Option String :=
  match dropWhileWS cs with
  | '(' :: rest =>
    let inner := rest.takeWhile (fun c => c ≠ ')')
    if inner.isEmpty then none
    else
      match rest.dropWhile (fun c => c ≠ ')') with
      | ')' :: tail => if (dropWhileWS tail).isEmpty then some ⟨inner⟩ else none
      | _ => none
  | _ => none

/-- The `list(<ref>)` formula pattern. -/
def listMatchFn (s : String) : Option String :=
  if strStartsWith s "list" then parseParenArg (s.data.drop 4) else none

/-- The `join(list(<ref>))` formula pattern. -/
def joinListMatchFn (s : String) : Option String :=
  if strStartsWith s "join" then
    match dropWhileWS (s.data.drop 4) with
    | '(' :: rest1 =>
      let cs2 := dropWhileWS rest1
      if "list".data.isPrefixOf cs2 then
        match dropWhileWS (cs2.drop 4) with
        | '(' :: rest2 =>
          let inner := rest2.takeWhile (fun c => c ≠ ')')
          if inner.isEmpty then none
          else
            match rest2.dropWhile (fun c => c ≠ ')') with
            | ')' :: tail =>
              match dropWhileWS tail with
              | ')' :: tail2 => if (dropWhileWS tail2).isEmpty then some ⟨inner⟩ else none
              | _ => none
            | _ => none
        | _ => none
      else none
    | _ => none
  else none

/-- The `if(<args>)` formula pattern (`s`-flagged regex: the whole argument
text between the first parenthesis and the final one). -/
def ifMatchFn (s : String) : Option String :=
  if strStartsWith s "if(" && strEndsWith s ")" && decide (4 ≤ s.data.length) then
    some (strDropRight (strDrop s 3) 1)
  else none

/-- Is the raw expression a quoted string literal (outer quotes matching)? -/
def isQuotedLiteral (raw : String) : Bool :=
  (strStartsWith raw dquoteStr && strEndsWith raw dquoteStr) ||
  (strStartsWith raw squoteStr && strEndsWith raw squoteStr)

/-- Coerce a resolved value to an array: arrays stay, null/undefined give
the empty array, any other value wraps as a singleton. -/
def coerceArr : JSVal → List Value
  | some (.arr elems) => elems
  | none => []
  | some .null => []
  | some v => [v]

mutual
/-- `getValueForRef` of the source: `file.*` fixed fields, `note.*` and bare
keys from frontmatter, `formula.*` through the formula evaluator.  The fuel
only decreases across the formula indirection, which is the one source of
non-termination in the original. -/
def getValueForRef (fuel : Nat) (file : NoteFile) (ref : String) (schema : Option BaseSchema) :
    Option JSVal :=
  match fuel with
  | 0 => none
  | fuel' + 1 =>
    let trimmed := jsTrim ref
    if strStartsWith trimmed "file." then some (fileField file (strDrop trimmed 5))
    else if strStartsWith trimmed "note." then some (lookupFm file (strDrop trimmed 5))
    else if strStartsWith trimmed "formula." then
      evalFormula fuel' file (strDrop trimmed 8) schema
    else some (lookupFm file trimmed)
termination_by structural fuel

/-- `evalFormula` of the source: look the expression up in the schema's
`formulas` section and evaluate it; anything missing or non-string is
`undefined`. -/
def evalFormula (fuel : Nat) (file : NoteFile) (formulaKey : String)
    (schema : Option BaseSchema) : Option JSVal :=
  match fuel with
  | 0 => none
  | fuel' + 1 =>
    match schema with
    | none => some none
    | some sch =>
      match sch.formulas with
      | none => some none
      | some fs =>
        match fs.lookup formulaKey with
        | some (.str expr) => evalFormulaExpression fuel' file expr schema
        | _ => some none
termination_by structural fuel

/-- `evalFormulaExpression` of the source: the ordered grammar — `null`,
numeric literal, quoted string, direct reference, `join(list(x))`,
`list(x)`, `if(a, b, c...)` — with everything else `undefined`.  Note that
the `if` then-branch is resolved with `getValueForRef` while only the else
branch is evaluated recursively as an expression. -/
def evalFormulaExpression (fuel : Nat) (file : NoteFile) (expr : String)
    (schema : Option BaseSchema) : Option JSVal :=
  match fuel with
  | 0 => none
  | fuel' + 1 =>
    let raw := jsTrim expr
    if raw = "" then some none
    else if raw = "null" then some (some .null)
    else
      match numLit raw with
      | some q => some (some (.num q))
      | none =>
        if isQuotedLiteral raw then some (some (.str (stripQuotes raw)))
        else if strStartsWith raw "file." || strStartsWith raw "note." ||
            strStartsWith raw "formula." then
          getValueForRef fuel' file raw schema
        else if isRefToken raw then getValueForRef fuel' file raw schema
        else
          match joinListMatchFn raw with
          | some ref =>
            (getValueForRef fuel' file (jsTrim ref) schema).map (fun v =>
              some (.str (String.intercalate ", " ((coerceArr v).map jsToString))))
          | none =>
            match listMatchFn raw with
            | some ref =>
              (getValueForRef fuel' file (jsTrim ref) schema).map (fun v =>
                some (.arr (coerceArr v)))
            | none =>
              match ifMatchFn raw with
              | some inner =>
                match (splitTopLevelCommas inner).map jsTrim with
                | cond :: thenRef :: e1 :: erest =>
                  let elseExpr := jsTrim (String.intercalate "," (e1 :: erest))
                  (getValueForRef fuel' file cond schema).bind (fun condVal =>
                    if truthy condVal then getValueForRef fuel' file thenRef schema
                    else evalFormulaExpression fuel' file elseExpr schema)
                | _ => some none
              | none => some none
termination_by structural fuel
end

/-- Capture `<inner>` from a statement of the form `<pre><inner><suf>`.
For `(.+)`-style captures the inner text must be non-empty, and — for the
source regexes written without the `s` flag — free of newline characters. -/
def capBetween (pre suf s : String) : Option String :=
  if strStartsWith s pre && strEndsWith s suf &&
      decide (pre.data.length + suf.data.length < s.data.length) then
    let inner := strDropRight (strDrop s pre.data.length) suf.data.length
    if noNewline inner then some inner else none
  else none

/-- Split a character list around the LAST occurrence of `sep` (mirrors a
greedy leading capture group). -/
def splitLastInfix (sep : List Char) : List Char → Option (List Char × List Char)
  | [] => if sep.isEmpty then some ([], []) else none
  | c :: rest =>
    match splitLastInfix sep rest with
    | some (b, a) => some (c :: b, a)
    | none =>
      if sep.isPrefixOf (c :: rest) then some ([], (c :: rest).drop sep.length)
      else none

/-- The `[<list-literal>].contains(<ref>)` pattern (`s`-flagged in the
source, both captures possibly empty, the first greedy). -/
def matchListContains (s : String) : Option (String × String) :=
  if strStartsWith s "[" && strEndsWith s ")" && decide (2 ≤ s.data.length) then
    (splitLastInfix "].contains(".data (strDropRight (strDrop s 1) 1).data).map
      (fun p => (⟨p.1⟩, ⟨p.2⟩))
  else none

/-- The `list(<prop>).contains(link(<target>))` pattern. -/
def matchListPropContainsLink (s : String) : Option (String × String) :=
  if strStartsWith s "list(" then
    let rest := s.data.drop 5
    let key := rest.takeWhile isRefChar
    let rest2 := rest.drop key.length
    if key.isEmpty then none
    else if ").contains(link(".data.isPrefixOf rest2 then
      let rest3 := rest2.drop 16
      let target := rest3.take (rest3.length - 2)
      if rest3.drop (rest3.length - 2) = [')', ')'] ∧ ¬target.isEmpty ∧
          noNewline ⟨target⟩ then some (⟨key⟩, ⟨target⟩)
      else none
    else none
  else none

/-- The `<prop>.contains(link(<target>))` pattern. -/
def matchPropContainsLink (s : String) : Option (String × String) :=
  let key := s.data.takeWhile isRefChar
  let rest := s.data.drop key.length
  if key.isEmpty then none
  else if ".contains(link(".data.isPrefixOf rest then
    let rest2 := rest.drop 15
    let target := rest2.take (rest2.length - 2)
    if rest2.drop (rest2.length - 2) = [')', ')'] ∧ ¬target.isEmpty ∧
        noNewline ⟨target⟩ then some (⟨key⟩, ⟨target⟩)
    else none
  else none

/-- The `file.<path|name|folder|ext>.<contains|startsWith>(<arg>)` pattern
(the alternatives are mutually exclusive, so attempt order is immaterial). -/
def matchFileFieldOp (s : String) : Option (String × Bool × String) :=
  (capBetween "file.path.contains(" ")" s).map (fun a => ("path", true, a)) <|>
  (capBetween "file.path.startsWith(" ")" s).map (fun a => ("path", false, a)) <|>
  (capBetween "file.name.contains(" ")" s).map (fun a => ("name", true, a)) <|>
  (capBetween "file.name.startsWith(" ")" s).map (fun a => ("name", false, a)) <|>
  (capBetween "file.folder.contains(" ")" s).map (fun a => ("folder", true, a)) <|>
  (capBetween "file.folder.startsWith(" ")" s).map (fun a => ("folder", false, a)) <|>
  (capBetween "file.ext.contains(" ")" s).map (fun a => ("ext", true, a)) <|>
  (capBetween "file.ext.startsWith(" ")" s).map (fun a => ("ext", false, a))

/-- One matched built-in predicate call of `evaluateStatement`, with the raw
captured groups. -/
inductive BuiltinCall where
  | hasTag (arg : String)
  | inFolder (arg : String)
  | hasLink (arg : String)
  | listContains (items needleRef : String)
  | pathStartsWith (arg : String)
  | pathContains (arg : String)
  | folderStartsWith (arg : String)
  | folderContains (arg : String)
  | tagsContains (arg : String)
  | listPropContainsLink (key target : String)
  | propContainsLink (key target : String)
  | fileFieldOp (field : String) (isContains : Bool) (arg : String)

/-- The built-in predicate dispatch of `evaluateStatement`, attempted in
exactly the source's order; the first matching pattern wins. -/
def firstBuiltin (raw : String) : Option BuiltinCall :=
  (capBetween "file.hasTag(" ")" raw).map .hasTag <|>
  (capBetween "file.inFolder(" ")" raw).map .inFolder <|>
  (capBetween "file.hasLink(" ")" raw).map .hasLink <|>
  (matchListContains raw).map (fun p => .listContains p.1 p.2) <|>
  (capBetween "file.path.startsWith(" ")" raw).map .pathStartsWith <|>
  (capBetween "file.path.contains(" ")" raw).map .pathContains <|>
  (capBetween "file.folder.startsWith(" ")" raw).map .folderStartsWith <|>
  (capBetween "file.folder.contains(" ")" raw).map .folderContains <|>
  (capBetween "file.tags.contains(" ")" raw).map .tagsContains <|>
  (matchListPropContainsLink raw).map (fun p => .listPropContainsLink p.1 p.2) <|>
  (matchPropContainsLink raw).map (fun p => .propContainsLink p.1 p.2) <|>
  (matchFileFieldOp raw).map (fun t => .fileFieldOp t.1 t.2.1 t.2.2)

/-- Evaluation of a matched built-in predicate (the note-dependent part of
each regex branch of `evaluateStatement`). -/
def evalBuiltin (fuel : Nat) (file : NoteFile) (b : BuiltinCall)
    (schema : Option BaseSchema) : Option Bool :=
  match b with
  | .hasTag arg => some (tagSetHas file (stripHash (stripQuotes arg)))
  | .inFolder arg =>
    let folder := stripTrailingSlashes (slashNormalize (stripQuotes arg))
    let pfx := if folder = "" then "" else folder ++ "/"
    some (if pfx = "" then true else strStartsWith file.path pfx)
  | .hasLink arg => some (fileHasLink file (stripQuotes arg))
  | .listContains items needleRef =>
    let itemsL := parseStringListLiteral items
    let nref := jsTrim needleRef
    (getValueForRef fuel file nref schema).map (fun needle =>
      let needleS :=
        match needle with
        | none => stripQuotes nref
        | some .null => ""
        | some v => jsToString v
      itemsL.contains needleS)
  | .pathStartsWith arg => some (strStartsWith file.path (slashNormalize (stripQuotes arg)))
  | .pathContains arg => some (strContains file.path (slashNormalize (stripQuotes arg)))
  | .folderStartsWith arg =>
    some (strStartsWith (dirname file.path)
      (stripTrailingSlashes (slashNormalize (stripQuotes arg))))
  | .folderContains arg =>
    some (strContains (dirname file.path) (slashNormalize (stripQuotes arg)))
  | .tagsContains arg => some (tagSetHas file (stripHash (stripQuotes arg)))
  | .listPropContainsLink key target =>
    let want := normalizeLinkish (stripQuotes target)
    (getValueForRef fuel file key schema).map (fun v =>
      (coerceArr v).any (fun x => normalizeLinkish (jsToString x) == want))
  | .propContainsLink key target =>
    let want := normalizeLinkish (stripQuotes target)
    (getValueForRef fuel file key schema).map (fun v =>
      (coerceArr v).any (fun x => normalizeLinkish (jsToString x) == want))
  | .fileFieldOp field isContains arg =>
    let needle := stripQuotes arg
    (getValueForRef fuel file ("file." ++ field) schema).map (fun v =>
      let hay :=
        match v with
        | none => ""
        | some .null => ""
        | some x => jsToString x
      if isContains then strContains hay needle else strStartsWith hay needle)

/-- A binary comparison operator of the statement grammar (`=` and `==`
behave identically and share a constructor). -/
inductive CmpOp where
  | ceq
  | cne
  | cgt
  | clt
  | cge
  | cle
deriving DecidableEq, Repr

/-- Lex a comparison operator at the head of the characters, trying the
regex alternation in its order (`==`, `=`, `!=`, `>=`, `<=`, `>`, `<`);
returns the operator and its character length. -/
def opAt : List Char → Option (CmpOp × Nat)
  | '=' :: '=' :: _ => some (.ceq, 2)
  | '=' :: _ => some (.ceq, 1)
  | '!' :: '=' :: _ => some (.cne, 2)
  | '>' :: '=' :: _ => some (.cge, 2)
  | '<' :: '=' :: _ => some (.cle, 2)
  | '>' :: _ => some (.cgt, 1)
  | '<' :: _ => some (.clt, 1)
  | _ => none

/-- Right-side condition of the comparison regex: past the whitespace run
following the operator, the lazy dot capture must reach the end of the
(pre-trimmed) statement without crossing a line terminator. -/
def cmpRightOk (cs : List Char) : Bool :=
  (cs.dropWhile jsWhitespace).all (fun c => !isLineTerm c)

/-- Scan for the comparison operator the regex matches on a trimmed
statement.  `acc` holds the characters already passed (reversed);
`seenTerm` records a line terminator inside the whitespace run currently
being crossed, and `badA` that some earlier line terminator is separated
from the scan position by a non-whitespace character — from then on the
dot-only left capture (anchored at the start) can no longer reach any later
operator, so no candidate can match.  A candidate operator matches when its
left prefix is still reachable (`!badA`; terminators in the immediately
preceding whitespace run are absorbed by the `\s*` between capture and
operator) and its right side is terminator-free; otherwise the scan
continues, which is exactly the backtracking outcome of the source regex. -/
def findOpAux (acc : List Char) (seenTerm badA : Bool) :
    List Char → Option (List Char × CmpOp × List Char)
  | [] => none
  | c :: rest =>
    if jsWhitespace c then
      findOpAux (c :: acc) (seenTerm || isLineTerm c) badA rest
    else
      match opAt (c :: rest) with
      | some (op, n) =>
        if !badA && cmpRightOk ((c :: rest).drop n) then
          some (acc.reverse, op, (c :: rest).drop n)
        else findOpAux (c :: acc) false (badA || seenTerm) rest
      | none => findOpAux (c :: acc) false (badA || seenTerm) rest

/-- The comparison regex of `evaluateStatement`, applied to the trimmed
statement: the leftmost reachable operator occurrence whose right side is
terminator-free, with the left and right captures trimmed (quotes are NOT
respected here, as in the source). -/
def findOp (s : String) : Option (String × CmpOp × String) :=
  (findOpAux [] false false s.data).map (fun t => (jsTrim ⟨t.1⟩, t.2.1, jsTrim ⟨t.2.2⟩))

/-- Numeric evaluation of a comparison operator. -/
def cmpNumOp (op : CmpOp) (a b : Rat) : Bool :=
  match op with
  | .ceq => decide (a = b)
  | .cne => decide (a ≠ b)
  | .cgt => decide (b < a)
  | .clt => decide (a < b)
  | .cge => decide (b ≤ a)
  | .cle => decide (a ≤ b)

/-- String evaluation of a comparison operator (JS relational operators on
strings are lexicographic; modelled with the code-point order). -/
def cmpStrOp (op : CmpOp) (a b : String) : Bool :=
  match op with
  | .ceq => decide (a = b)
  | .cne => decide (a ≠ b)
  | .cgt => decide (b < a)
  | .clt => decide (a < b)
  | .cge => decide (b ≤ a)
  | .cle => decide (a ≤ b)

/-- The result shape of the filter evaluators: pass/fail plus diagnostic
warnings. -/
structure StmtResult where
  ok : Bool
  warnings : List String
deriving DecidableEq, Repr

/-- The comparison branch of `evaluateStatement`: resolve the left side,
type the right side (boolean literal, then numeric literal, then unquoted
string), compare numerically when both sides coerce to finite numbers and
as strings otherwise. -/
def evalCmp (fuel : Nat) (file : NoteFile) (leftRef : String) (op : CmpOp)
    (rightRaw : String) (schema : Option BaseSchema) : Option StmtResult :=
  (getValueForRef fuel file leftRef schema).map (fun left =>
    let right : JSVal :=
      if jsToLower rightRaw = "true" then some (.bool true)
      else if jsToLower rightRaw = "false" then some (.bool false)
      else
        match numLit rightRaw with
        | some q => some (.num q)
        | none => some (.str (stripQuotes rightRaw))
    let leftNum := toNumber left
    let rightNum := toNumber right
    let ok :=
      match leftNum, rightNum with
      | some a, some b => cmpNumOp op a b
      | _, _ => cmpStrOp op (jsvalToString left) (jsvalToString right)
    ⟨ok, []⟩)

/-- The `or` fold of `evaluateStatement`, over a sub-statement evaluator:
every part is evaluated (the source sets a flag but keeps iterating) and all
warnings accumulate. -/
def orFoldParts (eval : String → Option StmtResult) : List String → Option StmtResult
  | [] => some ⟨false, []⟩
  | p :: ps => do
    let r ← eval p
    let rest ← orFoldParts eval ps
    pure ⟨r.ok || rest.ok, r.warnings ++ rest.warnings⟩

/-- The `and` fold of `evaluateStatement`: short-circuits on the first
failing part, keeping the warnings gathered so far. -/
def andFoldParts (eval : String → Option StmtResult) : List String → Option StmtResult
  | [] => some ⟨true, []⟩
  | p :: ps => do
    let r ← eval p
    if r.ok then do
      let rest ← andFoldParts eval ps
      pure ⟨rest.ok, r.warnings ++ rest.warnings⟩
    else pure ⟨false, r.warnings⟩

/-- `evaluateStatement` of the source, in the source's attempt order:
top-level `or`/`||` and `and`/`&&` splits, `not `/`!` negation, built-in
predicates, binary comparison, bare reference-token truthiness, and the
permissive fallback that passes with a `Filter non reconnu` warning.  Fuel
bounds the nesting depth of sub-statements; exhaustion yields `none`. -/
def evaluateStatement (fuel : Nat) (file : NoteFile) (stmt : String)
    (schema : Option BaseSchema) : Option StmtResult :=
  match fuel with
  | 0 => none
  | fuel' + 1 =>
    let raw := jsTrim stmt
    if raw = "" then some ⟨true, []⟩
    else if 1 < (splitOutsideQuotes raw " or ").length then
      orFoldParts (fun p => evaluateStatement fuel' file p schema)
        (splitOutsideQuotes raw " or ")
    else if 1 < (splitOutsideQuotes raw "||").length then
      orFoldParts (fun p => evaluateStatement fuel' file p schema)
        (splitOutsideQuotes raw "||")
    else if 1 < (splitOutsideQuotes raw " and ").length then
      andFoldParts (fun p => evaluateStatement fuel' file p schema)
        (splitOutsideQuotes raw " and ")
    else if 1 < (splitOutsideQuotes raw "&&").length then
      andFoldParts (fun p => evaluateStatement fuel' file p schema)
        (splitOutsideQuotes raw "&&")
    else if strStartsWith raw "not " then
      (evaluateStatement fuel' file (strDrop raw 4) schema).map (fun r =>
        ⟨!r.ok, r.warnings⟩)
    else if strStartsWith raw "!" then
      (evaluateStatement fuel' file (strDrop raw 1) schema).map (fun r =>
        ⟨!r.ok, r.warnings⟩)
    else
      match firstBuiltin raw with
      | some b => (evalBuiltin (fuel' + 1) file b schema).map (fun ok => ⟨ok, []⟩)
      | none =>
        match findOp raw with
        | some t => evalCmp (fuel' + 1) file t.1 t.2.1 t.2.2 schema
        | none =>
          if isRefToken raw then
            (getValueForRef (fuel' + 1) file raw schema).map (fun v => ⟨truthy v, []⟩)
          else some ⟨true, ["Filter non reconnu: " ++ raw]⟩

/-- A structured filter node, the tagged-variant reading of the loosely
typed JSON filters the source sniffs by shape: `null`/absent filters,
string statements, `and`/`or` arrays, `not` children, and any other object
shape (`otherF`).  An object carrying several combinator keys at once is
outside this model. -/
inductive FilterNode where
  | nullF
  | strF (s : String)
  | andF (parts : List FilterNode)
  | orF (parts : List FilterNode)
  | notF (child : FilterNode)
  | otherF

/-- JS falsiness of a filter node as a value (`!filter` and `if (filter.not)`
checks): null/absent and the empty string are falsy. -/
def filterFalsy : FilterNode → Bool
  | .nullF => true
  | .strF s => s.isEmpty
  | _ => false

mutual
/-- `evaluateFilter` of the source: falsy filters pass silently, strings go
through `evaluateStatement`, `and` short-circuits on the first failing
child, `or` evaluates every child, `not` with a falsy child falls through to
the unknown-shape warning, and unknown shapes pass with a warning. -/
def evaluateFilter (fuel : Nat) (file : NoteFile) (filter : FilterNode)
    (schema : Option BaseSchema) : Option StmtResult :=
  match filter with
  | .nullF => some ⟨true, []⟩
  | .strF s =>
    if s = "" then some ⟨true, []⟩ else evaluateStatement fuel file s schema
  | .andF parts => evalAndFilters fuel file parts schema
  | .orF parts => evalOrFilters fuel file parts schema
  | .notF child =>
    if filterFalsy child then some ⟨true, ["Filter non supporté (shape inconnu)."]⟩
    else (evaluateFilter fuel file child schema).map (fun r => ⟨!r.ok, r.warnings⟩)
  | .otherF => some ⟨true, ["Filter non supporté (shape inconnu)."]⟩

/-- The `{and: [...]}` loop: stops at the first failing child, keeping the
warnings gathered so far. -/
def evalAndFilters (fuel : Nat) (file : NoteFile) (parts : List FilterNode)
    (schema : Option BaseSchema) : Option StmtResult :=
  match parts with
  | [] => some ⟨true, []⟩
  | p :: ps => do
    let r ← evaluateFilter fuel file p schema
    if r.ok then do
      let rest ← evalAndFilters fuel file ps schema
      pure ⟨rest.ok, r.warnings ++ rest.warnings⟩
    else pure ⟨false, r.warnings⟩

/-- The `{or: [...]}` loop: every child is evaluated (the source only sets
a flag on success and keeps iterating), and all warnings accumulate. -/
def evalOrFilters (fuel : Nat) (file : NoteFile) (parts : List FilterNode)
    (schema : Option BaseSchema) : Option StmtResult :=
  match parts with
  | [] => some ⟨false, []⟩
  | p :: ps => do
    let r ← evaluateFilter fuel file p schema
    let rest ← evalOrFilters fuel file ps schema
    pure ⟨r.ok || rest.ok, r.warnings ++ rest.warnings⟩
end

/-- JS truncation toward zero (`Math.trunc`). -/
def jsTrunc (q : Rat) : Int := if 0 ≤ q then q.floor else q.ceil

/-- `clampInt` of the source: coerce to a number, fall back when not finite,
otherwise truncate and clamp into `[lo, hi]`. -/
def clampInt (value : JSVal) (fallback lo hi : Int) : Int :=
  match toNumber value with
  | none => fallback
  | some q => max lo (min hi (jsTrunc q))

/-- JS nullish test (`null` or `undefined`). -/
def jsNullish : JSVal → Bool
  | none => true
  | some .null => true
  | _ => false

/-- JS `a ?? b`. -/
def jsCoalesce (a b : JSVal) : JSVal := if jsNullish a then b else a

/-- The effective page size of `queryBase`:
`clampInt(body?.limit ?? view?.limit ?? 20, 20, 1, 500)`.  `viewLimit` is
the selected view's numeric `limit` (absent when there is no view or no
numeric limit). -/
def effectiveLimit (bodyLimit : JSVal) (viewLimit : Option Rat) : Int :=
  clampInt (jsCoalesce bodyLimit (jsCoalesce (viewLimit.map Value.num)
    (some (Value.num 20)))) 20 1 500

/-- The effective page number of `queryBase`:
`clampInt(body?.page ?? 1, 1, 1, 1_000_000)`. -/
def effectivePage (bodyPage : JSVal) : Int :=
  clampInt (jsCoalesce bodyPage (some (Value.num 1))) 1 1 1000000

/-- Modelled from the spec's words, for comparison with `effectiveLimit`:
the request limit if given, else the view limit, else 20, then truncated and
clamped into `[1, 500]`, with non-finite values falling back to 20. -/
def specEffectiveLimit (bodyLimit : JSVal) (viewLimit : Option Rat) : Int :=
  let chosen : JSVal :=
    if !jsNullish bodyLimit then bodyLimit
    else match viewLimit with
      | some q => some (.num q)
      | none => some (.num 20)
  match toNumber chosen with
  | none => 20
  | some q => max 1 (min 500 (jsTrunc q))

/-- Modelled from the spec's words, for comparison with `effectivePage`:
the request page if given else 1, clamped into `[1, 1000000]`, with
non-finite values falling back to 1. -/
def specEffectivePage (bodyPage : JSVal) : Int :=
  let chosen : JSVal := if !jsNullish bodyPage then bodyPage else some (.num 1)
  match toNumber chosen with
  | none => 1
  | some q => max 1 (min 1000000 (jsTrunc q))

/-- The pagination slice of `queryBase`:
`matches.slice((page - 1) * limit, (page - 1) * limit + limit)`. -/
def pageSlice {α : Type _} (rows : List α) (page limit : Nat) : List α :=
  (rows.drop ((page - 1) * limit)).take limit

/-- Ceiling division, the page count for a given total and limit. -/
def ceilDiv (t l : Nat) : Nat := (t + l - 1) / l

/-- The truncation notice appended to capped warning lists. -/
def truncNotice : String := "Warnings tronqués (max 200)."

/-- One step of the `addWarnings` accumulator of `queryBase`: once the set
holds 200 entries every further warning only raises the truncation flag;
otherwise the warning is added unless already present.  (The source's early
`return` out of a batch is observationally the same as skipping each
remaining warning individually, since the set never shrinks.) -/
def addWarning (acc : List String × Bool) (w : String) : List String × Bool :=
  if 200 ≤ acc.1.length then (acc.1, true)
  else if w ∈ acc.1 then acc
  else (acc.1 ++ [w], acc.2)

/-- The deduplicated warning set (in insertion order) and truncation flag
after feeding every evaluation warning through `addWarnings`. -/
def collectWarnings (ws : List String) : List String × Bool :=
  ws.foldl addWarning ([], false)

/-- Lexicographic (code-point) comparison of character lists, the model of
`localeCompare`-based ordering. -/
def lexLeB : List Char → List Char → Bool
  | [], _ => true
  | _ :: _, [] => false
  | a :: as, b :: bs => if a = b then lexLeB as bs else decide (a < b)

/-- The string comparator used for sorting warnings. -/
def jsLeB (a b : String) : Bool := lexLeB a.data b.data

/-- The response `warnings` array of `queryBase`: the set sorted with
`localeCompare` (modelled as the code-point order `jsLeB`), then the
truncation notice appended when the cap was hit. -/
def queryWarnings (ws : List String) : List String :=
  let acc := collectWarnings ws
  (List.insertionSort (fun a b => jsLeB a b = true) acc.1) ++
    (if acc.2 then [truncNotice] else [])

/-- A note as the upsert path sees it: a modification time and the
frontmatter mapping. -/
structure VaultNote where
  mtime : Int
  frontmatter : List (String × Value)

/-- The note store, keyed by path. -/
abbrev Vault := List (String × VaultNote)

/-- One requested frontmatter mutation.  `expected_mtime` is `some` exactly
when the request field is a JS number. -/
structure UpsertOp where
  file : String
  set : List (String × Value)
  unset : List String
  expected_mtime : Option Int

/-- One operation outcome: target file, reported mtime, changed keys and a
typed error, mirroring `BaseUpsertResult`. -/
structure UpsertResult where
  file : String
  mtime : Int
  changed : Option (List String × Option (List String))
  error : Option (String × String)

/-- Helper producing an error outcome. -/
def mkError (filePath : String) (mtime : Int) (code msg : String) : UpsertResult :=
  { file := filePath, mtime := mtime, changed := none, error := some (code, msg) }

/-- JS object property assignment on an assoc list: existing keys are
overwritten in place, new keys append. -/
def setKey (fm : List (String × Value)) (k : String) (v : Value) : List (String × Value) :=
  if fm.any (fun kv => kv.1 == k) then
    fm.map (fun kv => if kv.1 == k then (k, v) else kv)
  else fm ++ [(k, v)]

/-- Apply the `set` entries in order. -/
def applySet (fm : List (String × Value)) : List (String × Value) → List (String × Value)
  | [] => fm
  | (k, v) :: rest => applySet (setKey fm k v) rest

/-- Apply the `unset` deletions. -/
def applyUnset (fm : List (String × Value)) (ks : List String) : List (String × Value) :=
  ks.foldl (fun acc k => acc.filter (fun kv => kv.1 ≠ k)) fm

/-- The note after `processFrontMatter` ran the mutator.  The host assigns a
fresh modification time on write; modelled as the old mtime plus one. -/
def writeNote (note : VaultNote) (op : UpsertOp) : VaultNote :=
  { mtime := note.mtime + 1,
    frontmatter := applyUnset (applySet note.frontmatter op.set) op.unset }

/-- Path lookup in the vault (`getAbstractFileByPath`). -/
def vaultLookup (vault : Vault) (path : String) : Option VaultNote := vault.lookup path

/-- Replace the note at `path`. -/
def vaultUpdate (vault : Vault) (path : String) (note : VaultNote) : Vault :=
  vault.map (fun kv => if kv.1 == path then (path, note) else kv)

/-- The successful write branch of the upsert loop: mutate the frontmatter,
report the post-write mtime, the set keys and the unset list (omitted when
empty). -/
def doWrite (vault : Vault) (filePath : String) (note : VaultNote) (op : UpsertOp) :
    UpsertResult × Vault :=
  let newNote := writeNote note op
  ({ file := filePath, mtime := newNote.mtime,
     changed := some (op.set.map (fun kv => kv.1),
       if op.unset.isEmpty then none else some op.unset),
     error := none }, vaultUpdate vault filePath newNote)

/-- One iteration of the upsert loop of `upsertBase`: path validation, note
lookup, the optimistic-concurrency guard (`if (expected && mtime !==
expected)`: a zero or absent `expected_mtime` is falsy and skips the guard),
then the write.  Storage write failures (`write_error`) are not modelled —
writes succeed. -/
def stepOp (vault : Vault) (op : UpsertOp) : UpsertResult × Vault :=
  let filePath := normBaseId op.file
  if filePath = "" then
    (mkError "" 0 "validation_error"
      ("Opération sans champ " ++ squoteStr ++ "file" ++ squoteStr ++ "."), vault)
  else
    match vaultLookup vault filePath with
    | none => (mkError filePath 0 "not_found" ("Note introuvable: " ++ filePath), vault)
    | some note =>
      match op.expected_mtime with
      | some e =>
        if e ≠ 0 ∧ note.mtime ≠ e then
          (mkError filePath note.mtime "mtime_conflict"
            ("Conflit mtime (expected=" ++ toString e ++ ", actual=" ++
              toString note.mtime ++ ")."), vault)
        else doWrite vault filePath note op
      | none => doWrite vault filePath note op

/-- The batch loop of `upsertBase`: operations run sequentially; with
`continueOnError = false` the loop breaks right after recording the first
erroneous result, so later operations produce no results and no writes. -/
def processOps (continueOnError : Bool) : Vault → List UpsertOp → List UpsertResult × Vault
  | vault, [] => ([], vault)
  | vault, op :: rest =>
    let step := stepOp vault op
    if step.1.error.isSome && !continueOnError then ([step.1], step.2)
    else
      let next := processOps continueOnError step.2 rest
      (step.1 :: next.1, next.2)

/-- The full upsert response: `ok` iff every recorded result is error-free. -/
def upsertBase (vault : Vault) (ops : List UpsertOp) (continueOnError : Bool) :
    Bool × List UpsertResult × Vault :=
  let r := processOps continueOnError vault ops
  (r.1.all (fun x => x.error.isNone), r.1, r.2)

/-! ## Shared helper lemmas -/

/-- Totality of the warning-sort comparator. -/
theorem lexLeB_total : ∀ a b : List Char, lexLeB a b = true ∨ lexLeB b a = true := by
  intro a
  induction a with
  | nil => intro b; left; rfl
  | cons x as ih =>
    intro b
    cases b with
    | nil => right; rfl
    | cons y bs =>
      simp only [lexLeB]
      by_cases hxy : x = y
      · subst hxy
        simpa using ih bs
      · rcases lt_trichotomy x y with h | h | h
        · left
          rw [if_neg hxy]
          simpa using h
        · exact absurd h hxy
        · right
          rw [if_neg (Ne.symm hxy)]
          simpa using h

/-- Transitivity of the warning-sort comparator. -/
theorem lexLeB_trans : ∀ a b c : List Char,
    lexLeB a b = true → lexLeB b c = true → lexLeB a c = true := by
  intro a
  induction a with
  | nil => intro b c _ _; rfl
  | cons x as ih =>
    intro b c h1 h2
    cases b with
    | nil => simp [lexLeB] at h1
    | cons y bs =>
      cases c with
      | nil => simp [lexLeB] at h2
      | cons z cs =>
        simp only [lexLeB] at h1 h2 ⊢
        by_cases hxy : x = y
        · subst hxy
          rw [if_pos rfl] at h1
          by_cases hxz : x = z
          · subst hxz
            rw [if_pos rfl] at h2 ⊢
            exact ih bs cs h1 h2
          · rw [if_neg hxz] at h2 ⊢
            exact h2
        · rw [if_neg hxy] at h1
          by_cases hyz : y = z
          · subst hyz
            rw [if_neg hxy]
            exact h1
          · rw [if_neg hyz] at h2
            have hxz : x < z := lt_trans (by simpa using h1) (by simpa using h2)
            rw [if_neg (ne_of_lt hxz)]
            simpa using hxz

instance : IsTotal String (fun a b => jsLeB a b = true) :=
  ⟨fun a b => lexLeB_total a.data b.data⟩

instance : IsTrans String (fun a b => jsLeB a b = true) :=
  ⟨fun a b c => lexLeB_trans a.data b.data c.data⟩

/-- Joining consecutive `pageSlice` pages reassembles any list that fits in
`n` pages of `L` rows. -/
theorem chunk_join {α : Type _} (L : Nat) :
    ∀ (n : Nat) (l : List α), l.length ≤ n * L →
      ((List.range n).map (fun p => pageSlice l (p + 1) L)).flatten = l := by
  intro n
  induction n with
  | zero =>
    intro l h
    simp only [Nat.zero_mul, Nat.le_zero, List.length_eq_zero] at h
    simp [h]
  | succ n ih =>
    intro l h
    rw [List.range_succ_eq_map]
    simp only [List.map_cons, List.map_map, List.flatten_cons]
    have hhead : pageSlice l (0 + 1) L = l.take L := by simp [pageSlice]
    have htail : ((List.range n).map ((fun p => pageSlice l (p + 1) L) ∘ Nat.succ)) =
        (List.range n).map (fun p => pageSlice (l.drop L) (p + 1) L) := by
      apply List.map_congr_left
      intro p _
      show pageSlice l (p.succ + 1) L = pageSlice (l.drop L) (p + 1) L
      simp only [pageSlice, Nat.add_sub_cancel, List.drop_drop]
      rw [Nat.succ_mul, Nat.add_comm]
    have hlen : (l.drop L).length ≤ n * L := by
      have hexp : (n + 1) * L = n * L + L := Nat.succ_mul n L
      simp only [List.length_drop]
      omega
    rw [hhead, htail, ih (l.drop L) hlen]
    exact List.take_append_drop L l

/-- The warning accumulator keeps at most 200 entries, stays deduplicated,
and raises the truncation flag only when exactly full. -/
theorem collect_invariant (ws : List String) :
    ∀ acc : List String × Bool, acc.1.length ≤ 200 → acc.1.Nodup →
      (acc.2 = true → acc.1.length = 200) →
      (ws.foldl addWarning acc).1.length ≤ 200 ∧ (ws.foldl addWarning acc).1.Nodup ∧
        ((ws.foldl addWarning acc).2 = true → (ws.foldl addWarning acc).1.length = 200) := by
  induction ws with
  | nil => intro acc h1 h2 h3; exact ⟨h1, h2, h3⟩
  | cons w ws ih =>
    intro acc h1 h2 h3
    simp only [List.foldl_cons]
    apply ih
    · unfold addWarning
      split_ifs <;> simp_all <;> omega
    · unfold addWarning
      split_ifs <;> simp_all [List.nodup_append]
    · unfold addWarning
      split_ifs with ha hb
      · intro _
        have hx : acc.1.length = 200 := by omega
        simpa using hx
      · exact h3
      · intro hflag
        have h200 := h3 (by simpa using hflag)
        exact absurd h200 (by omega)

/-- A bare (prefix-free) reference resolves to the raw frontmatter lookup. -/
theorem getValueForRef_bare (fuel : Nat) (file : NoteFile) (schema : Option BaseSchema)
    (ref : String) (htrim : jsTrim ref = ref)
    (h1 : strStartsWith ref "file." = false) (h2 : strStartsWith ref "note." = false)
    (h3 : strStartsWith ref "formula." = false) :
    getValueForRef (fuel + 1) file ref schema = some (lookupFm file ref) := by
  simp only [getValueForRef, htrim, h1, h2, h3, Bool.false_eq_true, if_false]

/-- A statement that survives the split, negation and built-in stages falls
through to the comparison/bare-reference/fallback tail. -/
theorem evaluateStatement_atomic (fuel : Nat) (file : NoteFile) (stmt : String)
    (schema : Option BaseSchema)
    (hne : jsTrim stmt ≠ "")
    (hor : (splitOutsideQuotes (jsTrim stmt) " or ").length ≤ 1)
    (hor2 : (splitOutsideQuotes (jsTrim stmt) "||").length ≤ 1)
    (hand : (splitOutsideQuotes (jsTrim stmt) " and ").length ≤ 1)
    (hand2 : (splitOutsideQuotes (jsTrim stmt) "&&").length ≤ 1)
    (hnot : strStartsWith (jsTrim stmt) "not " = false)
    (hbang : strStartsWith (jsTrim stmt) "!" = false)
    (hbi : firstBuiltin (jsTrim stmt) = none) :
    evaluateStatement (fuel + 1) file stmt schema =
      match findOp (jsTrim stmt) with
      | some t => evalCmp (fuel + 1) file t.1 t.2.1 t.2.2 schema
      | none =>
        if isRefToken (jsTrim stmt) then
          (getValueForRef (fuel + 1) file (jsTrim stmt) schema).map
            (fun v => ⟨truthy v, []⟩)
        else some ⟨true, ["Filter non reconnu: " ++ jsTrim stmt]⟩ := by
  simp only [evaluateStatement]
  rw [if_neg hne, if_neg (by omega), if_neg (by omega), if_neg (by omega),
    if_neg (by omega), if_neg (by simp [hnot]), if_neg (by simp [hbang]), hbi]

/-- A comparison against a numeric literal with a numeric left value
compares numerically. -/
theorem evalCmp_num (fuel : Nat) (file : NoteFile) (schema : Option BaseSchema)
    (leftRef : String) (op : CmpOp) (rightRaw : String) (q r : Rat)
    (hleft : getValueForRef fuel file leftRef schema = some (some (.num q)))
    (ht : jsToLower rightRaw ≠ "true") (hf : jsToLower rightRaw ≠ "false")
    (hnum : numLit rightRaw = some r) :
    evalCmp fuel file leftRef op rightRaw schema = some ⟨cmpNumOp op q r, []⟩ := by
  unfold evalCmp
  rw [hleft]
  simp only [Option.map_some, if_neg ht, if_neg hf, hnum]
  rfl

/-- The `if` formula branch with a truthy condition resolves the
then-argument as a reference with `getValueForRef` (only the else branch is
recursively evaluated as an expression). -/
theorem evalIf_truthy (fuel : Nat) (file : NoteFile) (schema : Option BaseSchema)
    (expr inner cond thenRef e1 : String) (erest : List String) (v : JSVal)
    (htrim : jsTrim expr = expr) (hne : expr ≠ "") (hnull : expr ≠ "null")
    (hnum : numLit expr = none) (hq : isQuotedLiteral expr = false)
    (hp1 : strStartsWith expr "file." = false) (hp2 : strStartsWith expr "note." = false)
    (hp3 : strStartsWith expr "formula." = false) (href : isRefToken expr = false)
    (hjoin : joinListMatchFn expr = none) (hlist : listMatchFn expr = none)
    (hif : ifMatchFn expr = some inner)
    (hargs : (splitTopLevelCommas inner).map jsTrim = cond :: thenRef :: e1 :: erest)
    (hcond : getValueForRef fuel file cond schema = some v) (htr : truthy v = true) :
    evalFormulaExpression (fuel + 1) file expr schema =
      getValueForRef fuel file thenRef schema := by
  simp only [evalFormulaExpression, htrim]
  rw [if_neg hne, if_neg hnull, hnum]
  simp only [hq, Bool.false_eq_true, if_false]
  simp only [hp1, hp2, hp3, Bool.or_self, Bool.false_eq_true, if_false]
  simp only [href, Bool.false_eq_true, if_false]
  rw [hjoin]
  simp only []
  rw [hlist]
  simp only []
  rw [hif]
  simp only []
  rw [hargs]
  simp only []
  rw [hcond, Option.some_bind]
  simp only [htr, if_true]

/-- A reached upsert operation with a truthy stale `expected_mtime` yields
the conflict result and leaves the vault unchanged. -/
theorem stepOp_conflict (vault : Vault) (op : UpsertOp) (e : Int) (note : VaultNote)
    (hf : normBaseId op.file ≠ "")
    (hn : vaultLookup vault (normBaseId op.file) = some note)
    (he : op.expected_mtime = some e) (he0 : e ≠ 0) (hm : note.mtime ≠ e) :
    stepOp vault op =
      (mkError (normBaseId op.file) note.mtime "mtime_conflict"
        ("Conflit mtime (expected=" ++ toString e ++ ", actual=" ++
          toString note.mtime ++ ")."), vault) := by
  unfold stepOp
  simp only []
  rw [if_neg hf, hn, he]
  simp only []
  rw [if_pos ⟨he0, hm⟩]

/-! ## Concrete fixtures used by witnesses and counterexamples -/

/-- A plain note with empty frontmatter. -/
def cNote : NoteFile :=
  { path := "A.md", basename := "A", extension := "md", size := 10, ctime := 0, mtime := 0,
    frontmatter := [], cacheTags := [], links := [] }

/-- A note whose frontmatter has `priority: 0`. -/
def noteP0 : NoteFile :=
  { path := "A.md", basename := "A", extension := "md", size := 10, ctime := 0, mtime := 0,
    frontmatter := [("priority", .num 0)], cacheTags := [], links := [] }

/-- A note whose frontmatter has `priority: 3`. -/
def noteP3 : NoteFile :=
  { path := "A.md", basename := "A", extension := "md", size := 10, ctime := 0, mtime := 0,
    frontmatter := [("priority", .num 3)], cacheTags := [], links := [] }

/-- The spec scenario's formula expression,
`if(priority, 'has-priority', 'none')`. -/
def ifPriorityExpr : String :=
  "if(priority, " ++ squoteStr ++ "has-priority" ++ squoteStr ++ ", " ++
    squoteStr ++ "none" ++ squoteStr ++ ")"

/-- The quoted then-argument text `'has-priority'` (with its quotes). -/
def quotedThenKey : String := squoteStr ++ "has-priority" ++ squoteStr

/-- The argument text captured inside `if(...)` for `ifPriorityExpr`. -/
def innerArgsC : String :=
  "priority, " ++ quotedThenKey ++ ", " ++ squoteStr ++ "none" ++ squoteStr

/-- A vault holding one note `a.md` with mtime 5. -/
def vaultA : Vault := [("a.md", ⟨5, []⟩)]

/-- An upsert of `a.md` with `expected_mtime = 0` (stale: actual is 5). -/
def opZeroExpected : UpsertOp := ⟨"a.md", [], [], some 0⟩

/-- A follow-up upsert of `a.md` setting one key. -/
def opFollowUp : UpsertOp := ⟨"a.md", [("k", Value.num 1)], [], none⟩

/-- A vault holding one note `b.md` with mtime 9. -/
def vaultB : Vault := [("b.md", ⟨9, []⟩)]

/-- An upsert of `b.md` with the stale nonzero `expected_mtime = 7`. -/
def opStale : UpsertOp := ⟨"b.md", [], [], some 7⟩

/-! ## Claim theorems -/

/-- C1 (amended): for every note whose frontmatter has `priority` equal to
0, the formula `if(priority, 'has-priority', 'none')` evaluates to
`undefined`: 0 is a finite number and therefore TRUTHY under the code's
rule, so the then-branch is chosen, and the then-branch is resolved as a
reference (a frontmatter lookup of the literal text `'has-priority'`, which
is absent), not as a string literal.  The else branch `'none'` is never
evaluated. -/
theorem c1_if_priority_zero_yields_undefined (fuel : Nat) (file : NoteFile)
    (schema : Option BaseSchema)
    (hp : file.frontmatter.lookup "priority" = some (.num 0))
    (hth : file.frontmatter.lookup quotedThenKey = none) :
    evalFormulaExpression (fuel + 2) file ifPriorityExpr schema = some none := by
  have hcond : getValueForRef (fuel + 1) file "priority" schema =
      some (some (.num 0)) := by
    rw [getValueForRef_bare fuel file schema "priority" (by decide) (by decide) (by decide)
      (by decide)]
    unfold lookupFm
    rw [hp]
  rw [evalIf_truthy (fuel + 1) file schema ifPriorityExpr innerArgsC "priority"
    quotedThenKey (squoteStr ++ "none" ++ squoteStr) [] (some (.num 0))
    (by decide) (by decide) (by decide) (by decide) (by decide) (by decide) (by decide)
    (by decide) (by decide) (by decide) (by decide) (by decide) (by decide) hcond rfl]
  rw [getValueForRef_bare fuel file schema quotedThenKey (by decide) (by decide) (by decide)
    (by decide)]
  unfold lookupFm
  rw [hth]

/-- C1 witness: the amended claim at the concrete note with `priority: 0`. -/
theorem c1_if_priority_zero_yields_undefined_witness :
    evalFormulaExpression 3 noteP0 ifPriorityExpr none = some none :=
  c1_if_priority_zero_yields_undefined 1 noteP0 none rfl rfl

/-- C1 counterexample: on the note with `priority: 0` the formula evaluates
to `undefined`, not to the string `"none"` the claim predicts. -/
theorem c1_if_priority_zero_yields_undefined_cex :
    evalFormulaExpression 3 noteP0 ifPriorityExpr none = some none ∧
    (some none : Option JSVal) ≠ some (some (Value.str "none")) := by
  constructor
  · rfl
  · simp

/-- C2 (amended): the structured `{or: [...]}` filter does NOT
short-circuit: every child is evaluated, the result is the disjunction of
the children's outcomes, and the warnings of ALL children (including those
after the first succeeding one) are aggregated in order. -/
theorem c2_or_evaluates_all_children (fuel : Nat) (file : NoteFile)
    (schema : Option BaseSchema) (parts : List FilterNode) (rs : List StmtResult)
    (h : List.Forall₂ (fun p r => evaluateFilter fuel file p schema = some r) parts rs) :
    evaluateFilter fuel file (.orF parts) schema =
      some ⟨rs.any (fun r => r.ok), (rs.map (fun r => r.warnings)).flatten⟩ := by
  have key : evalOrFilters fuel file parts schema =
      some ⟨rs.any (fun r => r.ok), (rs.map (fun r => r.warnings)).flatten⟩ := by
    induction h with
    | nil => simp [evalOrFilters]
    | cons hpr htail ih =>
      simp only [evalOrFilters, hpr, ih, Option.bind_some, List.any_cons, List.map_cons,
        List.flatten_cons, Option.pure_def]
      rfl
  simpa [evaluateFilter] using key

/-- C2 witness: the amended claim at a concrete two-child `or`. -/
theorem c2_or_evaluates_all_children_witness :
    evaluateFilter 1 cNote (.orF [.strF "", .strF "@@"]) none =
      some ⟨true, ["Filter non reconnu: @@"]⟩ :=
  c2_or_evaluates_all_children 1 cNote none [.strF "", .strF "@@"]
    [⟨true, []⟩, ⟨true, ["Filter non reconnu: @@"]⟩]
    (List.Forall₂.cons rfl (List.Forall₂.cons rfl List.Forall₂.nil))

/-- C2 counterexample: in `{or: ["", "@@"]}` the first child succeeds with
no warnings, yet the second child's warning appears in the result — so
children after the first success ARE evaluated, contradicting the claim. -/
theorem c2_or_evaluates_all_children_cex :
    evaluateFilter 1 cNote (.strF "") none = some ⟨true, []⟩ ∧
    evaluateFilter 1 cNote (.orF [.strF "", .strF "@@"]) none =
      some ⟨true, ["Filter non reconnu: @@"]⟩ ∧
    (["Filter non reconnu: @@"] : List String) ≠ [] := by
  refine ⟨rfl, rfl, by simp⟩

/-- C3 (amended): for every note and every statement text that is NON-EMPTY
after trimming and matches none of the grammar's forms (no top-level
or/and split, no negation prefix, no built-in predicate, no binary
comparison, not a bare reference token), `evaluateStatement` returns
`ok: true` with the single warning `Filter non reconnu: <trimmed text>` and
never fails. -/
theorem c3_unrecognized_statement_warns (fuel : Nat) (file : NoteFile) (text : String)
    (schema : Option BaseSchema)
    (hne : jsTrim text ≠ "")
    (hor : (splitOutsideQuotes (jsTrim text) " or ").length ≤ 1)
    (hor2 : (splitOutsideQuotes (jsTrim text) "||").length ≤ 1)
    (hand : (splitOutsideQuotes (jsTrim text) " and ").length ≤ 1)
    (hand2 : (splitOutsideQuotes (jsTrim text) "&&").length ≤ 1)
    (hnot : strStartsWith (jsTrim text) "not " = false)
    (hbang : strStartsWith (jsTrim text) "!" = false)
    (hbi : firstBuiltin (jsTrim text) = none)
    (hcmp : findOp (jsTrim text) = none)
    (href : isRefToken (jsTrim text) = false) :
    evaluateStatement (fuel + 1) file text schema =
      some ⟨true, ["Filter non reconnu: " ++ jsTrim text]⟩ := by
  rw [evaluateStatement_atomic fuel file text schema hne hor hor2 hand hand2 hnot hbang hbi,
    hcmp]
  simp only [href, Bool.false_eq_true, if_false]

/-- C3 witness: the amended claim at the concrete unrecognized text `@@`. -/
theorem c3_unrecognized_statement_warns_witness :
    jsTrim "@@" ≠ "" ∧
    evaluateStatement 1 cNote "@@" none = some ⟨true, ["Filter non reconnu: @@"]⟩ :=
  ⟨by decide, c3_unrecognized_statement_warns 0 cNote "@@" none (by decide) (by decide)
    (by decide) (by decide) (by decide) (by decide) (by decide) rfl rfl rfl⟩

/-- C3 counterexample: the empty statement matches none of the grammar's
forms, yet the evaluator returns it as passing with NO warning, not with
the warning `Filter non reconnu: ` the claim predicts. -/
theorem c3_unrecognized_statement_warns_cex :
    evaluateStatement 1 cNote "" none = some ⟨true, []⟩ ∧
    evaluateStatement 1 cNote "" none ≠
      some ⟨true, ["Filter non reconnu: " ++ jsTrim ""]⟩ := by
  constructor
  · rfl
  · intro h
    simp [show evaluateStatement 1 cNote "" none = some ⟨true, []⟩ from rfl] at h

/-- C4 (amended): in a batch processed with `continueOnError = false`, a
reached operation whose NONZERO `expected_mtime` differs from the target
note's actual modification time produces a result with
`error.code = "mtime_conflict"`, and no operation after it in the batch is
executed (the remaining operations produce no results and the vault is
unchanged from that point).  With `expected_mtime = 0` the guard is
bypassed instead (see C9). -/
theorem c4_nonzero_conflict_aborts_batch (vault : Vault) (pre post : List UpsertOp)
    (op : UpsertOp) (e : Int) (note : VaultNote)
    (hpre : ∀ r ∈ (processOps false vault pre).1, r.error = none)
    (hf : normBaseId op.file ≠ "")
    (hn : vaultLookup (processOps false vault pre).2 (normBaseId op.file) = some note)
    (he : op.expected_mtime = some e) (he0 : e ≠ 0) (hm : note.mtime ≠ e) :
    processOps false vault (pre ++ op :: post) =
      ((processOps false vault pre).1 ++
        [mkError (normBaseId op.file) note.mtime "mtime_conflict"
          ("Conflit mtime (expected=" ++ toString e ++ ", actual=" ++
            toString note.mtime ++ ").")],
        (processOps false vault pre).2) := by
  induction pre generalizing vault with
  | nil =>
    simp only [processOps, List.nil_append] at hn ⊢
    rw [stepOp_conflict vault op e note hf hn he he0 hm]
    simp [mkError]
  | cons o pre ih =>
    have hd : processOps false vault (o :: pre) =
        (let step := stepOp vault o
         if step.1.error.isSome && !false then ([step.1], step.2)
         else
           let next := processOps false step.2 pre
           (step.1 :: next.1, next.2)) := rfl
    by_cases herr : (stepOp vault o).1.error.isSome
    · exfalso
      have hmem : (stepOp vault o).1 ∈ (processOps false vault (o :: pre)).1 := by
        rw [hd]
        simp [herr]
      have hnone := hpre _ hmem
      rw [hnone] at herr
      simp at herr
    · have hsplit : processOps false vault (o :: pre) =
          ((stepOp vault o).1 :: (processOps false (stepOp vault o).2 pre).1,
            (processOps false (stepOp vault o).2 pre).2) := by
        rw [hd]
        simp [herr]
      have hpre' : ∀ r ∈ (processOps false (stepOp vault o).2 pre).1, r.error = none := by
        intro r hr
        apply hpre
        rw [hsplit]
        exact List.mem_cons_of_mem _ hr
      have hn' : vaultLookup (processOps false (stepOp vault o).2 pre).2
          (normBaseId op.file) = some note := by
        rw [hsplit] at hn
        exact hn
      have goal' := ih (stepOp vault o).2 hpre' hn'
      have hcons : processOps false vault (o :: (pre ++ op :: post)) =
          (let step := stepOp vault o
           if step.1.error.isSome && !false then ([step.1], step.2)
           else
             let next := processOps false step.2 (pre ++ op :: post)
             (step.1 :: next.1, next.2)) := rfl
      rw [List.cons_append, hcons]
      rw [if_neg (by simp [herr])]
      rw [goal', hsplit]
      simp

/-- C4 witness: the amended claim on a concrete batch — the stale
`expected_mtime = 7` against actual mtime 9 aborts before the follow-up
operation. -/
theorem c4_nonzero_conflict_aborts_batch_witness :
    processOps false vaultB [opStale, opFollowUp] =
      ([mkError "b.md" 9 "mtime_conflict"
        ("Conflit mtime (expected=" ++ toString (7 : Int) ++ ", actual=" ++
          toString (9 : Int) ++ ").")], vaultB) :=
  c4_nonzero_conflict_aborts_batch vaultB [] [opFollowUp] opStale 7 ⟨9, []⟩
    (by simp [processOps]) (by decide) rfl rfl (by decide) (by decide)

/-- C4 counterexample: an operation whose `expected_mtime` (0) differs from
the note's actual mtime (5) produces NO `mtime_conflict` error, and the
subsequent operation in the batch still executes — both parts of the
original claim fail for a zero `expected_mtime`. -/
theorem c4_nonzero_conflict_aborts_batch_cex :
    ((0 : Int) ≠ 5) ∧
    (processOps false vaultA [opZeroExpected, opFollowUp]).1.map (fun r => r.error) =
      [none, none] ∧
    (processOps false vaultA [opZeroExpected, opFollowUp]).1.length = 2 := by
  refine ⟨by decide, rfl, rfl⟩

/-- C5 (confirmed): for every match list and limit `L` in `[1, 500]`, each
page `p` is the slice `[(p-1)*L, (p-1)*L + L)`, and concatenating the pages
`1 .. ceil(T/L)` reproduces the full list with no duplicates and no
omissions. -/
theorem c5_pagination_reconstructs {α : Type _} (l : List α) (L : Nat)
    (h1 : 1 ≤ L) (h2 : L ≤ 500) :
    ((List.range (ceilDiv l.length L)).map (fun p => pageSlice l (p + 1) L)).flatten
      = l := by
  apply chunk_join L
  unfold ceilDiv
  have hd := Nat.div_add_mod (l.length + L - 1) L
  have hmod : (l.length + L - 1) % L < L := Nat.mod_lt _ (by omega)
  rw [Nat.mul_comm] at hd
  generalize hgen : (l.length + L - 1) / L * L = m at hd ⊢
  omega

/-- C5 witness: five rows with limit 2 split into pages 1..3 that
reassemble the list. -/
theorem c5_pagination_reconstructs_witness :
    1 ≤ 2 ∧
    ((List.range (ceilDiv ([0, 1, 2, 3, 4] : List Nat).length 2)).map
      (fun p => pageSlice ([0, 1, 2, 3, 4] : List Nat) (p + 1) 2)).flatten =
      [0, 1, 2, 3, 4] :=
  ⟨by decide, c5_pagination_reconstructs [0, 1, 2, 3, 4] 2 (by decide) (by decide)⟩

/-- C6 (confirmed): for every note where the reference `x` resolves to a
finite number `q`, `evaluateStatement(N, "x > 5").ok` is the boolean
negation of `evaluateStatement(N, "x <= 5").ok`, and likewise for the
`<` / `>=` pair. -/
theorem c6_numeric_comparison_inversion (fuel : Nat) (file : NoteFile)
    (schema : Option BaseSchema) (q : Rat)
    (hx : file.frontmatter.lookup "x" = some (.num q)) :
    evaluateStatement (fuel + 1) file "x > 5" schema = some ⟨decide ((5 : Rat) < q), []⟩ ∧
    evaluateStatement (fuel + 1) file "x <= 5" schema = some ⟨decide (q ≤ 5), []⟩ ∧
    evaluateStatement (fuel + 1) file "x < 5" schema = some ⟨decide (q < 5), []⟩ ∧
    evaluateStatement (fuel + 1) file "x >= 5" schema = some ⟨decide ((5 : Rat) ≤ q), []⟩ ∧
    decide ((5 : Rat) < q) = !decide (q ≤ 5) ∧
    decide (q < 5) = !decide ((5 : Rat) ≤ q) := by
  have hval : getValueForRef (fuel + 1) file "x" schema = some (some (.num q)) := by
    rw [getValueForRef_bare fuel file schema "x" (by decide) (by decide) (by decide)
      (by decide)]
    unfold lookupFm
    rw [hx]
  refine ⟨?_, ?_, ?_, ?_, ?_, ?_⟩
  · rw [evaluateStatement_atomic fuel file "x > 5" schema (by decide) (by decide)
      (by decide) (by decide) (by decide) (by decide) (by decide) rfl,
      show findOp (jsTrim "x > 5") = some ("x", CmpOp.cgt, "5") from rfl]
    exact evalCmp_num (fuel + 1) file schema "x" CmpOp.cgt "5" q 5 hval (by decide)
      (by decide) (by decide)
  · rw [evaluateStatement_atomic fuel file "x <= 5" schema (by decide) (by decide)
      (by decide) (by decide) (by decide) (by decide) (by decide) rfl,
      show findOp (jsTrim "x <= 5") = some ("x", CmpOp.cle, "5") from rfl]
    exact evalCmp_num (fuel + 1) file schema "x" CmpOp.cle "5" q 5 hval (by decide)
      (by decide) (by decide)
  · rw [evaluateStatement_atomic fuel file "x < 5" schema (by decide) (by decide)
      (by decide) (by decide) (by decide) (by decide) (by decide) rfl,
      show findOp (jsTrim "x < 5") = some ("x", CmpOp.clt, "5") from rfl]
    exact evalCmp_num (fuel + 1) file schema "x" CmpOp.clt "5" q 5 hval (by decide)
      (by decide) (by decide)
  · rw [evaluateStatement_atomic fuel file "x >= 5" schema (by decide) (by decide)
      (by decide) (by decide) (by decide) (by decide) (by decide) rfl,
      show findOp (jsTrim "x >= 5") = some ("x", CmpOp.cge, "5") from rfl]
    exact evalCmp_num (fuel + 1) file schema "x" CmpOp.cge "5" q 5 hval (by decide)
      (by decide) (by decide)
  · rcases le_or_lt q 5 with h | h
    · simp [h, not_lt.mpr h]
    · simp [h, not_le.mpr h]
  · rcases le_or_lt 5 q with h | h
    · simp [h, not_lt.mpr h]
    · simp [h, not_le.mpr h]

/-- A note whose frontmatter has `x: 7`, for the C6 witness. -/
def noteX7 : NoteFile :=
  { path := "A.md", basename := "A", extension := "md", size := 10, ctime := 0, mtime := 0,
    frontmatter := [("x", .num 7)], cacheTags := [], links := [] }

/-- C6 witness: the inversion at the concrete note with `x: 7`. -/
theorem c6_numeric_comparison_inversion_witness :
    evaluateStatement 1 noteX7 "x > 5" none = some ⟨decide ((5 : Rat) < 7), []⟩ ∧
    evaluateStatement 1 noteX7 "x <= 5" none = some ⟨decide ((7 : Rat) ≤ 5), []⟩ ∧
    evaluateStatement 1 noteX7 "x < 5" none = some ⟨decide ((7 : Rat) < 5), []⟩ ∧
    evaluateStatement 1 noteX7 "x >= 5" none = some ⟨decide ((5 : Rat) ≤ 7), []⟩ ∧
    decide ((5 : Rat) < 7) = !decide ((7 : Rat) ≤ 5) ∧
    decide ((7 : Rat) < 5) = !decide ((5 : Rat) ≤ 7) :=
  c6_numeric_comparison_inversion 0 noteX7 none 7 rfl

/-- C7 (confirmed): the effective page size is the request limit if given,
else the view limit, else 20, truncated and clamped into `[1, 500]`, with
non-finite values falling back to 20; the effective page is the request
page if given else 1, clamped into `[1, 1000000]`, with non-finite values
falling back to 1.  Stated as equality of the code's resolution with the
spec-worded resolution for all inputs. -/
theorem c7_limit_page_resolution (bodyLimit : JSVal) (viewLimit : Option Rat)
    (bodyPage : JSVal) :
    effectiveLimit bodyLimit viewLimit = specEffectiveLimit bodyLimit viewLimit ∧
    effectivePage bodyPage = specEffectivePage bodyPage := by
  constructor
  · cases bodyLimit with
    | none => cases viewLimit <;> rfl
    | some v => cases v <;> first | rfl | (cases viewLimit <;> rfl)
  · cases bodyPage with
    | none => rfl
    | some v => cases v <;> rfl

/-- C8 (amended): for every note and every formula expression of the form
`if(<condExpr>, <thenExpr>, <elseExpr...>)` whose condition resolves to a
truthy value, the result equals resolving `<thenExpr>` as a plain REFERENCE
with the Value Resolver (`getValueForRef`) — not recursively evaluating it
as a nested formula expression; in particular a quoted string literal
then-branch yields the frontmatter lookup of the literal text (usually
`undefined`), not the string value.  Only the else branch is recursively
evaluated. -/
theorem c8_if_then_branch_resolved_as_reference (fuel : Nat) (file : NoteFile)
    (schema : Option BaseSchema) (expr inner cond thenRef e1 : String)
    (erest : List String) (v : JSVal)
    (htrim : jsTrim expr = expr) (hne : expr ≠ "") (hnull : expr ≠ "null")
    (hnum : numLit expr = none) (hq : isQuotedLiteral expr = false)
    (hp1 : strStartsWith expr "file." = false) (hp2 : strStartsWith expr "note." = false)
    (hp3 : strStartsWith expr "formula." = false) (href : isRefToken expr = false)
    (hjoin : joinListMatchFn expr = none) (hlist : listMatchFn expr = none)
    (hif : ifMatchFn expr = some inner)
    (hargs : (splitTopLevelCommas inner).map jsTrim = cond :: thenRef :: e1 :: erest)
    (hcond : getValueForRef fuel file cond schema = some v) (htr : truthy v = true) :
    evalFormulaExpression (fuel + 1) file expr schema =
      getValueForRef fuel file thenRef schema :=
  evalIf_truthy fuel file schema expr inner cond thenRef e1 erest v htrim hne hnull hnum
    hq hp1 hp2 hp3 href hjoin hlist hif hargs hcond htr

/-- C8 witness: the amended claim at the concrete note with `priority: 3`
and the quoted then-branch `'has-priority'`. -/
theorem c8_if_then_branch_resolved_as_reference_witness :
    evalFormulaExpression 2 noteP3 ifPriorityExpr none =
      getValueForRef 1 noteP3 quotedThenKey none :=
  c8_if_then_branch_resolved_as_reference 1 noteP3 none ifPriorityExpr innerArgsC
    "priority" quotedThenKey (squoteStr ++ "none" ++ squoteStr) [] (some (.num 3))
    (by decide) (by decide) (by decide) (by decide) (by decide) (by decide) (by decide)
    (by decide) (by decide) (by decide) (by decide) (by decide) (by decide) rfl rfl

/-- C8 counterexample: with the truthy condition `priority: 3`, the formula
`if(priority, 'has-priority', 'none')` evaluates to `undefined`, not to the
string `"has-priority"` that recursive evaluation of the quoted then-branch
would produce. -/
theorem c8_if_then_branch_resolved_as_reference_cex :
    evalFormulaExpression 3 noteP3 ifPriorityExpr none = some none ∧
    (some none : Option JSVal) ≠ some (some (Value.str "has-priority")) := by
  constructor
  · rfl
  · simp

/-- C9 (confirmed): an upsert operation with `expected_mtime = 0` bypasses
the optimistic-concurrency guard entirely: no `mtime_conflict` error is
ever reported for it, and when the target note exists the write proceeds
regardless of the note's actual modification time. -/
theorem c9_zero_expected_mtime_bypasses_guard (vault : Vault) (op : UpsertOp)
    (hz : op.expected_mtime = some 0) :
    (∀ code msg, (stepOp vault op).1.error = some (code, msg) →
      code ≠ "mtime_conflict") ∧
    (∀ note, vaultLookup vault (normBaseId op.file) = some note →
      normBaseId op.file ≠ "" →
      stepOp vault op = doWrite vault (normBaseId op.file) note op ∧
      (stepOp vault op).1.error = none) := by
  constructor
  · intro code msg h
    unfold stepOp at h
    simp only [] at h
    by_cases hempty : normBaseId op.file = ""
    · rw [if_pos hempty] at h
      simp [mkError] at h
      intro hc
      rw [hc] at h
      exact absurd h.1 (by decide)
    · rw [if_neg hempty] at h
      cases hl : vaultLookup vault (normBaseId op.file) with
      | none =>
        rw [hl] at h
        simp only [] at h
        simp [mkError] at h
        intro hc
        rw [hc] at h
        exact absurd h.1 (by decide)
      | some note =>
        rw [hl, hz] at h
        simp only [] at h
        rw [if_neg (by simp)] at h
        simp [doWrite] at h
  · intro note hn hne
    have hstep : stepOp vault op = doWrite vault (normBaseId op.file) note op := by
      unfold stepOp
      simp only []
      rw [if_neg hne, hn, hz]
      simp only []
      rw [if_neg (by simp)]
    refine ⟨hstep, ?_⟩
    rw [hstep]
    simp [doWrite]

/-- C9 witness: `expected_mtime = 0` on the note `a.md` whose actual mtime
is 5 — the write proceeds, no error. -/
theorem c9_zero_expected_mtime_bypasses_guard_witness :
    stepOp vaultA opZeroExpected = doWrite vaultA "a.md" ⟨5, []⟩ opZeroExpected ∧
    (stepOp vaultA opZeroExpected).1.error = none :=
  (c9_zero_expected_mtime_bypasses_guard vaultA opZeroExpected rfl).2 ⟨5, []⟩ rfl
    (by decide)

/-- C10 (confirmed): the query response warnings array is the deduplicated
warning set sorted by the `localeCompare` comparator (modelled as
code-point order), with the truncation notice appended AFTER sorting
exactly when the 200-entry cap was hit (the flag implies the set holds
exactly 200 entries), so the array never exceeds 201 entries. -/
theorem c10_warnings_sorted_dedup_capped (ws : List String) :
    queryWarnings ws =
      List.insertionSort (fun a b => jsLeB a b = true) (collectWarnings ws).1 ++
        (if (collectWarnings ws).2 then [truncNotice] else []) ∧
    List.Sorted (fun a b => jsLeB a b = true)
      (List.insertionSort (fun a b => jsLeB a b = true) (collectWarnings ws).1) ∧
    (List.insertionSort (fun a b => jsLeB a b = true) (collectWarnings ws).1).Nodup ∧
    ((collectWarnings ws).2 = true → (collectWarnings ws).1.length = 200) ∧
    (queryWarnings ws).length ≤ 201 := by
  have hinv := collect_invariant ws ([], false) (by simp) (by simp) (by simp)
  refine ⟨rfl, ?_, ?_, ?_, ?_⟩
  · exact List.sorted_insertionSort _ _
  · exact ((List.perm_insertionSort _ _).nodup_iff).mpr hinv.2.1
  · exact hinv.2.2
  · unfold queryWarnings
    have hlen := (List.perm_insertionSort (fun a b : String => jsLeB a b = true)
      (collectWarnings ws).1).length_eq
    simp only [List.length_append]
    split_ifs <;> simp_all [collectWarnings] <;> omega
